import Mathlib

set_option maxHeartbeats 1600000

/-!
Verification development for the type-relation engine, query plumbing and
derived computations of this compiler repository.

The Lean definitions below are a shallow embedding of the source files

  * compiler/rustc_middle/src/ty/relate.rs
  * compiler/rustc_query_impl/src/plumbing.rs
  * compiler/rustc_hir_analysis/src/collect/item_bounds.rs
  * compiler/rustc_mir_transform/src/remove_zsts.rs

Interned values (types, consts, generic arguments) are modelled as inductive
data; `DefId`s, regions and other identifiers that the relation code never
inspects structurally are modelled as `Nat`.  The pluggable `TypeRelation`
(resp. `TypeRelation2`) trait objects become records of functions; compiler
context operations that live outside the provided sources (`variances_of`,
`try_eval_target_usize`, `expand_abstract_consts`, `type_of`, `stable_cmp`)
become fields of a `TyCtxt` oracle record that the theorems quantify over.
Panics (the `bug!`/`assert!` macros) are modelled by a third `Outcome.bug`
result, distinct from `Ok` and from returned `TypeError`s.
-/

namespace Rustc

/-- Variance of a generic-parameter position (`ty::Variance`). -/
inductive Variance where
  | covariant
  | invariant
  | contravariant
  | bivariant
deriving BEq, DecidableEq, Repr

/-- The `hir::Mutability` flag: `true` models `Mutability::Mut`. -/
abbrev Mutability := Bool

/-- `hir::Unsafety`: `true` models `Unsafety::Unsafe`. -/
abbrev Unsafety := Bool

/-- `ty::AliasKind`.  The source constructor names are
`Projection`, `Inherent`, `Opaque` and `Weak`. -/
inductive AliasKind where
  | proj
  | inherent
  | opaq
  | weak
deriving BEq, DecidableEq, Repr

/-- `ty::ParamTy`: a type parameter; `structurally_relate_tys` compares only
the `index` field, not the `name`. -/
structure ParamTy where
  index : Nat
  name : Nat
deriving BEq, DecidableEq, Repr

/-- `ty::Binder<T>`: a value under a binder.  The list of bound-variable
kinds is abstracted to a single `Nat` identifier, since `relate.rs` never
inspects it (binder contents are delegated to the relation's `binders`
method). -/
structure Binder (α : Type) where
  vars : Nat
  value : α
deriving Repr

/-- `Binder::map_bound`. -/
def Binder.mapBound (f : α → β) (b : Binder α) : Binder β :=
  ⟨b.vars, f b.value⟩

/-- `Binder::rebind`: keep this binder's variables, replace the value. -/
def Binder.rebind (b : Binder α) (v : β) : Binder β :=
  ⟨b.vars, v⟩

/-- `Binder::skip_binder`. -/
def Binder.skipBinder (b : Binder α) : α := b.value

mutual

/-- `ty::TyKind` — the interned type structure of this compiler version.
Identifier-like payloads (`DefId`, regions, int/uint/float kinds, the
generator movability, the `dyn` representation, placeholders, inference
variables and `ErrorGuaranteed`) are modelled as `Nat` (or dropped when the
relation code carries them through unchanged). -/
inductive Ty where
  | bool
  | char
  | int (ity : Nat)
  | uint (uty : Nat)
  | float (fty : Nat)
  | adt (adtDef : Nat) (args : List GenericArg)
  | foreign (defId : Nat)
  | str
  | array (elem : Ty) (len : Const)
  | slice (elem : Ty)
  | rawPtr (mt : TypeAndMut)
  | ref (region : Nat) (ty : Ty) (mutbl : Mutability)
  | fnDef (defId : Nat) (args : List GenericArg)
  | fnPtr (sig : Binder FnSig)
  | dynamic (preds : List (Binder ExistentialPredicate)) (region : Nat) (repr : Nat)
  | closure (defId : Nat) (args : List GenericArg)
  | generator (defId : Nat) (args : List GenericArg) (movability : Nat)
  | generatorWitness (types : Binder (List Ty))
  | generatorWitnessMIR (defId : Nat) (args : List GenericArg)
  | never
  | tuple (elems : List Ty)
  | alias (kind : AliasKind) (data : AliasTy)
  | param (p : ParamTy)
  | bound (debruijn : Nat) (bv : Nat)
  | placeholder (p : Nat)
  | infer (v : Nat)
  | error

/-- `ty::TypeAndMut`. -/
inductive TypeAndMut where
  | mk (ty : Ty) (mutbl : Mutability)

/-- `ty::AliasTy`: a projection/opaque/inherent/weak alias head. -/
inductive AliasTy where
  | mk (defId : Nat) (args : List GenericArg)

/-- `ty::FnSig`: inputs and output in one list (the output is the last
element), plus the `c_variadic`, `unsafety` and `abi` flags. -/
inductive FnSig where
  | mk (inputsAndOutput : List Ty) (cVariadic : Bool) (unsafety : Unsafety) (abi : Nat)

/-- `ty::ExistentialPredicate`. -/
inductive ExistentialPredicate where
  | trait (tr : ExistentialTraitRef)
  | proj (p : ExistentialProjection)
  | autoTrait (defId : Nat)

/-- `ty::ExistentialTraitRef`. -/
inductive ExistentialTraitRef where
  | mk (defId : Nat) (args : List GenericArg)

/-- `ty::ExistentialProjection`. -/
inductive ExistentialProjection where
  | mk (defId : Nat) (args : List GenericArg) (term : Term)

/-- `ty::Term`: either a type or a const. -/
inductive Term where
  | ty (t : Ty)
  | const (c : Const)

/-- `ty::Const`: a const together with its type. -/
inductive Const where
  | mk (kind : ConstKind) (ty : Ty)

/-- `ty::ConstKind`. -/
inductive ConstKind where
  | param (index : Nat) (name : Nat)
  | infer (v : Nat)
  | bound (debruijn : Nat) (bv : Nat)
  | placeholder (p : Nat)
  | unevaluated (uv : UnevaluatedConst)
  | value (v : Nat)
  | error
  | expr (e : Expr)

/-- `ty::UnevaluatedConst`: a reference to a const definition plus its
generic arguments. -/
inductive UnevaluatedConst where
  | mk (defId : Nat) (args : List GenericArg)

/-- `ty::Expr`: a symbolic const expression. -/
inductive Expr where
  | binop (op : Nat) (l : Const) (r : Const)
  | unop (op : Nat) (v : Const)
  | cast (kind : Nat) (v : Const) (t : Ty)
  | functionCall (f : Const) (args : List Const)

/-- `ty::GenericArg`: tagged union of a lifetime, a type or a const. -/
inductive GenericArg where
  | lifetime (r : Nat)
  | ty (t : Ty)
  | const (c : Const)

end

/-- The temporary wrapper struct `GeneratorWitness` used by the
generator-witness arm of `structurally_relate_tys`. -/
structure GeneratorWitness where
  types : List Ty

/-- `UnevaluatedConst.def`. -/
def UnevaluatedConst.defId : UnevaluatedConst → Nat
  | .mk d _ => d

/-- `UnevaluatedConst.args`. -/
def UnevaluatedConst.args : UnevaluatedConst → List GenericArg
  | .mk _ a => a

/-- `AliasTy.def_id`. -/
def AliasTy.defId : AliasTy → Nat
  | .mk d _ => d

/-- `AliasTy.args`. -/
def AliasTy.args : AliasTy → List GenericArg
  | .mk _ a => a

/-- `Const::kind`. -/
def Const.kind : Const → ConstKind
  | .mk k _ => k

/-- `Const::ty`. -/
def Const.ty : Const → Ty
  | .mk _ t => t

/-- `FnSig.inputs_and_output`. -/
def FnSig.inputsAndOutput : FnSig → List Ty
  | .mk io _ _ _ => io

/-- `FnSig::inputs`: all but the last entry of `inputs_and_output`. -/
def FnSig.inputs (s : FnSig) : List Ty := s.inputsAndOutput.dropLast

/-- `FnSig::output`: the last entry of `inputs_and_output` (the source
indexes `inputs_and_output[len - 1]`; an empty signature is ill-formed and
is given a dummy answer here to keep the model total). -/
def FnSig.output (s : FnSig) : Ty := s.inputsAndOutput.getLastD (.tuple [])

/-- `FnSig.c_variadic`. -/
def FnSig.cVariadic : FnSig → Bool
  | .mk _ cv _ _ => cv

/-- `FnSig.unsafety`. -/
def FnSig.unsafety : FnSig → Unsafety
  | .mk _ _ u _ => u

/-- `FnSig.abi`. -/
def FnSig.abi : FnSig → Nat
  | .mk _ _ _ a => a

mutual

/-- Structural equality on types, modelling the derived `PartialEq` of the
interned source values (interning makes pointer equality coincide with
structural equality). -/
def tyBeq : Ty → Ty → Bool
  | .bool, .bool => true
  | .char, .char => true
  | .int i, .int i2 => i == i2
  | .uint u, .uint u2 => u == u2
  | .float f, .float f2 => f == f2
  | .adt d as, .adt d2 as2 => d == d2 && argsBeq as as2
  | .foreign d, .foreign d2 => d == d2
  | .str, .str => true
  | .array t c, .array t2 c2 => tyBeq t t2 && constBeq c c2
  | .slice t, .slice t2 => tyBeq t t2
  | .rawPtr (.mk t m), .rawPtr (.mk t2 m2) => tyBeq t t2 && m == m2
  | .ref r t m, .ref r2 t2 m2 => r == r2 && tyBeq t t2 && m == m2
  | .fnDef d as, .fnDef d2 as2 => d == d2 && argsBeq as as2
  | .fnPtr ⟨v, s⟩, .fnPtr ⟨v2, s2⟩ => v == v2 && fnSigBeq s s2
  | .dynamic ps r rp, .dynamic ps2 r2 rp2 => bepsBeq ps ps2 && r == r2 && rp == rp2
  | .closure d as, .closure d2 as2 => d == d2 && argsBeq as as2
  | .generator d as m, .generator d2 as2 m2 => d == d2 && argsBeq as as2 && m == m2
  | .generatorWitness ⟨v, ts⟩, .generatorWitness ⟨v2, ts2⟩ => v == v2 && tysBeq ts ts2
  | .generatorWitnessMIR d as, .generatorWitnessMIR d2 as2 => d == d2 && argsBeq as as2
  | .never, .never => true
  | .tuple ts, .tuple ts2 => tysBeq ts ts2
  | .alias k (.mk d as), .alias k2 (.mk d2 as2) => k == k2 && d == d2 && argsBeq as as2
  | .param p, .param p2 => p == p2
  | .bound i v, .bound i2 v2 => i == i2 && v == v2
  | .placeholder p, .placeholder p2 => p == p2
  | .infer v, .infer v2 => v == v2
  | .error, .error => true
  | _, _ => false
termination_by a _ => sizeOf a

/-- Structural equality on type lists. -/
def tysBeq : List Ty → List Ty → Bool
  | [], [] => true
  | a :: as, b :: bs => tyBeq a b && tysBeq as bs
  | _, _ => false
termination_by a _ => sizeOf a

/-- Structural equality on function signatures. -/
def fnSigBeq : FnSig → FnSig → Bool
  | .mk io cv u ab, .mk io2 cv2 u2 ab2 => tysBeq io io2 && cv == cv2 && u == u2 && ab == ab2
termination_by a _ => sizeOf a

/-- Structural equality on lists of binder-wrapped existential predicates. -/
def bepsBeq : List (Binder ExistentialPredicate) → List (Binder ExistentialPredicate) → Bool
  | [], [] => true
  | ⟨v, a⟩ :: as, ⟨v2, b⟩ :: bs => v == v2 && epBeq a b && bepsBeq as bs
  | _, _ => false
termination_by a _ => sizeOf a

/-- Structural equality on existential predicates. -/
def epBeq : ExistentialPredicate → ExistentialPredicate → Bool
  | .trait (.mk d as), .trait (.mk d2 as2) => d == d2 && argsBeq as as2
  | .proj (.mk d as t), .proj (.mk d2 as2 t2) => d == d2 && argsBeq as as2 && termBeq t t2
  | .autoTrait d, .autoTrait d2 => d == d2
  | _, _ => false
termination_by a _ => sizeOf a

/-- Structural equality on terms. -/
def termBeq : Term → Term → Bool
  | .ty t, .ty t2 => tyBeq t t2
  | .const c, .const c2 => constBeq c c2
  | _, _ => false
termination_by a _ => sizeOf a

/-- Structural equality on consts. -/
def constBeq : Const → Const → Bool
  | .mk k t, .mk k2 t2 => constKindBeq k k2 && tyBeq t t2
termination_by a _ => sizeOf a

/-- Structural equality on const kinds. -/
def constKindBeq : ConstKind → ConstKind → Bool
  | .param i n, .param i2 n2 => i == i2 && n == n2
  | .infer v, .infer v2 => v == v2
  | .bound d v, .bound d2 v2 => d == d2 && v == v2
  | .placeholder p, .placeholder p2 => p == p2
  | .unevaluated (.mk d as), .unevaluated (.mk d2 as2) => d == d2 && argsBeq as as2
  | .value v, .value v2 => v == v2
  | .error, .error => true
  | .expr e, .expr e2 => exprBeq e e2
  | _, _ => false
termination_by a _ => sizeOf a

/-- Structural equality on symbolic const expressions. -/
def exprBeq : Expr → Expr → Bool
  | .binop o l r, .binop o2 l2 r2 => o == o2 && constBeq l l2 && constBeq r r2
  | .unop o v, .unop o2 v2 => o == o2 && constBeq v v2
  | .cast k v t, .cast k2 v2 t2 => k == k2 && constBeq v v2 && tyBeq t t2
  | .functionCall f as, .functionCall f2 as2 => constBeq f f2 && constsBeq as as2
  | _, _ => false
termination_by a _ => sizeOf a

/-- Structural equality on const lists. -/
def constsBeq : List Const → List Const → Bool
  | [], [] => true
  | a :: as, b :: bs => constBeq a b && constsBeq as bs
  | _, _ => false
termination_by a _ => sizeOf a

/-- Structural equality on generic-argument lists. -/
def argsBeq : List GenericArg → List GenericArg → Bool
  | [], [] => true
  | a :: as, b :: bs => argBeq a b && argsBeq as bs
  | _, _ => false
termination_by a _ => sizeOf a

/-- Structural equality on generic arguments. -/
def argBeq : GenericArg → GenericArg → Bool
  | .lifetime r, .lifetime r2 => r == r2
  | .ty t, .ty t2 => tyBeq t t2
  | .const c, .const c2 => constBeq c c2
  | _, _ => false
termination_by a _ => sizeOf a

end

/-- `ty::error::ExpectedFound`. -/
structure ExpectedFound (α : Type) where
  expected : α
  found : α
deriving Repr

/-- `ExpectedFound::new`. -/
def ExpectedFound.new (aIsExpected : Bool) (a b : α) : ExpectedFound α :=
  if aIsExpected then ⟨a, b⟩ else ⟨b, a⟩

/-- `ty::error::TypeError` — the recoverable relation errors that the
embedded functions can produce. -/
inductive TypeError where
  | mismatch
  | constnessMismatch (ef : ExpectedFound Bool)
  | polarityMismatch (ef : ExpectedFound Nat)
  | unsafetyMismatch (ef : ExpectedFound Unsafety)
  | abiMismatch (ef : ExpectedFound Nat)
  | mutability
  | argumentMutability (i : Nat)
  | tupleSize (ef : ExpectedFound Nat)
  | fixedArraySize (ef : ExpectedFound Nat)
  | argCount
  | sorts (ef : ExpectedFound Ty)
  | argumentSorts (ef : ExpectedFound Ty) (i : Nat)
  | traits (ef : ExpectedFound Nat)
  | variadicMismatch (ef : ExpectedFound Bool)
  | projectionMismatched (ef : ExpectedFound Nat)
  | existentialMismatch (ef : ExpectedFound (List (Binder ExistentialPredicate)))
  | constMismatch (ef : ExpectedFound Const)

/-- Result of a relation step: `Ok`, a returned `TypeError`, or a panic
(`bug!` / failed `assert!`), which the source treats as an unrecoverable
internal invariant violation. -/
inductive Outcome (α : Type) where
  | ok (a : α)
  | err (e : TypeError)
  | bug

/-- Sequencing of outcomes: the `?` operator; `bug` aborts everything. -/
def Outcome.bind : Outcome α → (α → Outcome β) → Outcome β
  | .ok a, f => f a
  | .err e, _ => .err e
  | .bug, _ => .bug

instance : Monad Outcome where
  pure := .ok
  bind := Outcome.bind

/-- `relate::expected_found` (and `expected_found2`). -/
def expectedFound (aIsExpected : Bool) (a b : α) : ExpectedFound α :=
  ExpectedFound.new aIsExpected a b

/-- `ty::VarianceDiagInfo`: diagnostics-only payload passed to
`relate_with_variance`. -/
inductive VarianceDiagInfo where
  | defaultInfo
  | invariant (ty : Ty) (paramIndex : Nat)

/-- The compiler-context operations used by `relate.rs` whose bodies live
outside the provided sources; the theorems quantify over this record, so
nothing is assumed about them beyond what the relation code itself does. -/
structure TyCtxt where
  variancesOf : Nat → List Variance
  typeOfInstantiated : Nat → List GenericArg → Ty
  tryEvalTargetUsize : Const → Option Nat
  genericConstExprs : Bool
  expandAbstractConsts : Const → Const
  stableCmpEP : ExistentialPredicate → ExistentialPredicate → Ordering

/-- The `TypeRelation` trait object: one field per overridable method, with
one field per instantiation of the generic `relate_with_variance` /
`binders` methods that `relate.rs` itself uses. -/
structure TypeRelation where
  aIsExpected : Bool
  tys : Ty → Ty → Outcome Ty
  regions : Nat → Nat → Outcome Nat
  consts : Const → Const → Outcome Const
  relateItemArgs : Nat → List GenericArg → List GenericArg → Outcome (List GenericArg)
  relateWithVarianceTy : Variance → VarianceDiagInfo → Ty → Ty → Outcome Ty
  relateWithVarianceArg : Variance → VarianceDiagInfo → GenericArg → GenericArg →
    Outcome GenericArg
  relateWithVarianceArgs : Variance → VarianceDiagInfo → List GenericArg → List GenericArg →
    Outcome (List GenericArg)
  bindersFnSig : Binder FnSig → Binder FnSig → Outcome (Binder FnSig)
  bindersGeneratorWitness : Binder GeneratorWitness → Binder GeneratorWitness →
    Outcome (Binder GeneratorWitness)
  bindersExistentialTraitRef : Binder ExistentialTraitRef → Binder ExistentialTraitRef →
    Outcome (Binder ExistentialTraitRef)
  bindersExistentialProjection : Binder ExistentialProjection → Binder ExistentialProjection →
    Outcome (Binder ExistentialProjection)

/-- The `TypeRelation2` trait object (the parallel, unit-returning relation
interface of `relate.rs`). -/
structure TypeRelation2 where
  aIsExpected : Bool
  tys : Ty → Ty → Outcome Unit
  regions : Nat → Nat → Outcome Unit
  consts : Const → Const → Outcome Unit
  relateItemArgs : Nat → List GenericArg → List GenericArg → Outcome Unit
  relateWithVarianceTy : Variance → VarianceDiagInfo → Ty → Ty → Outcome Unit
  relateWithVarianceArg : Variance → VarianceDiagInfo → GenericArg → GenericArg → Outcome Unit
  relateWithVarianceArgs : Variance → VarianceDiagInfo → List GenericArg → List GenericArg →
    Outcome Unit
  bindersFnSig : Binder FnSig → Binder FnSig → Outcome Unit
  bindersGeneratorWitness : Binder GeneratorWitness → Binder GeneratorWitness → Outcome Unit
  bindersExistentialTraitRef : Binder ExistentialTraitRef → Binder ExistentialTraitRef →
    Outcome Unit
  bindersExistentialProjection : Binder ExistentialProjection → Binder ExistentialProjection →
    Outcome Unit

/-- Stable insertion of an element into a sorted list (used to model
`Vec::sort_by`, which is a stable sort). -/
def insertByOrd (cmp : α → α → Ordering) (a : α) : List α → List α
  | [] => [a]
  | b :: rest => if cmp a b != .gt then a :: b :: rest else b :: insertByOrd cmp a rest

/-- Stable sort by a comparator, modelling `Vec::sort_by`. -/
def sortByOrd (cmp : α → α → Ordering) : List α → List α
  | [] => []
  | a :: rest => insertByOrd cmp a (sortByOrd cmp rest)

/-- `Vec::dedup`: remove consecutive duplicates, keeping the first. -/
def dedupBy (eq : α → α → Bool) : List α → List α
  | [] => []
  | [a] => [a]
  | a :: b :: rest =>
    if eq a b then dedupBy eq (a :: rest) else a :: dedupBy eq (b :: rest)

/-- Relate a zipped list of pairs element-wise, short-circuiting at the
first error (models collecting an iterator of `RelateResult`s). -/
def relateZipped (f : α × α → Outcome β) : List (α × α) → Outcome (List β)
  | [] => .ok []
  | p :: rest => do
    let r ← f p
    let rs ← relateZipped f rest
    pure (r :: rs)

/-- `relate::relate_type_and_mut`. -/
def relate_type_and_mut (R : TypeRelation) (a b : TypeAndMut) (baseTy : Ty) :
    Outcome TypeAndMut :=
  match a, b with
  | .mk aTy aMutbl, .mk bTy bMutbl =>
    if aMutbl != bMutbl then .err .mutability
    else
      let variance := if aMutbl then Variance.invariant else Variance.covariant
      let info := if aMutbl then VarianceDiagInfo.invariant baseTy 0
        else VarianceDiagInfo.defaultInfo
      do
        let ty ← R.relateWithVarianceTy variance info aTy bTy
        pure (.mk ty aMutbl)

/-- The element loop of `relate::relate_args_with_variances`, indexing the
variance list by position (a position without a variance entry is an
out-of-bounds panic in the source). -/
def relateArgsWithVariancesGo (tcx : TyCtxt) (R : TypeRelation) (tyDefId : Nat)
    (variances : List Variance) (aArg : List GenericArg) (fetchTyForDiag : Bool)
    (i : Nat) : List (GenericArg × GenericArg) → Outcome (List GenericArg)
  | [] => .ok []
  | (a, b) :: rest =>
    match variances.get? i with
    | none => .bug
    | some variance =>
      let varianceInfo :=
        if variance == Variance.invariant && fetchTyForDiag then
          VarianceDiagInfo.invariant (tcx.typeOfInstantiated tyDefId aArg) i
        else VarianceDiagInfo.defaultInfo
      do
        let r ← R.relateWithVarianceArg variance varianceInfo a b
        let rest2 ← relateArgsWithVariancesGo tcx R tyDefId variances aArg fetchTyForDiag
          (i + 1) rest
        pure (r :: rest2)

/-- `relate::relate_args_with_variances`. -/
def relate_args_with_variances (tcx : TyCtxt) (R : TypeRelation) (tyDefId : Nat)
    (variances : List Variance) (aArg bArg : List GenericArg) (fetchTyForDiag : Bool) :
    Outcome (List GenericArg) :=
  relateArgsWithVariancesGo tcx R tyDefId variances aArg fetchTyForDiag 0 (aArg.zip bArg)

/-- The `Relate` impl for `GenericArgsRef`: element-wise invariant relation
of two generic-argument lists. -/
def relateGenericArgs (R : TypeRelation) (a b : List GenericArg) :
    Outcome (List GenericArg) :=
  relateZipped (fun p => R.relateWithVarianceArg .invariant .defaultInfo p.1 p.2) (a.zip b)

/-- The `Relate` impl for `ty::AliasTy`. -/
def AliasTy.relate (R : TypeRelation) (a b : AliasTy) : Outcome AliasTy :=
  if a.defId != b.defId then
    .err (.projectionMismatched (expectedFound R.aIsExpected a.defId b.defId))
  else do
    let args ← relateGenericArgs R a.args b.args
    pure (.mk a.defId args)

/-- The element loop of the `Relate` impl for existential-predicate lists:
relate the sorted, deduplicated lists pairwise. -/
def relateEPsZipped (R : TypeRelation) (a b : List (Binder ExistentialPredicate)) :
    List (Binder ExistentialPredicate × Binder ExistentialPredicate) →
    Outcome (List (Binder ExistentialPredicate))
  | [] => .ok []
  | (epA, epB) :: rest =>
    let step : Outcome (Binder ExistentialPredicate) :=
      match epA.skipBinder, epB.skipBinder with
      | .trait ta, .trait tb => do
        let r ← R.bindersExistentialTraitRef (epA.rebind ta) (epB.rebind tb)
        pure (epA.rebind (.trait r.skipBinder))
      | .proj pa, .proj pb => do
        let r ← R.bindersExistentialProjection (epA.rebind pa) (epB.rebind pb)
        pure (epA.rebind (.proj r.skipBinder))
      | .autoTrait da, .autoTrait db =>
        if da == db then .ok (epA.rebind (.autoTrait da))
        else .err (.existentialMismatch (expectedFound R.aIsExpected a b))
      | _, _ => .err (.existentialMismatch (expectedFound R.aIsExpected a b))
    do
      let r ← step
      let rs ← relateEPsZipped R a b rest
      pure (r :: rs)

/-- Sort (by `stable_cmp` on the binder-skipped predicate) and deduplicate
an existential-predicate list, as done on both sides by the `Relate` impl
for `&ty::List<ty::PolyExistentialPredicate>`. -/
def sortDedupEPs (tcx : TyCtxt) (v : List (Binder ExistentialPredicate)) :
    List (Binder ExistentialPredicate) :=
  dedupBy bepsBeqOne (sortByOrd (fun x y => tcx.stableCmpEP x.skipBinder y.skipBinder) v)
where
  /-- `PartialEq` on a single `Binder<ExistentialPredicate>`. -/
  bepsBeqOne (x y : Binder ExistentialPredicate) : Bool :=
    x.vars == y.vars && epBeq x.value y.value

/-- The `Relate` impl for `&ty::List<ty::PolyExistentialPredicate>`. -/
def relateExistentialPredicates (tcx : TyCtxt) (R : TypeRelation)
    (a b : List (Binder ExistentialPredicate)) :
    Outcome (List (Binder ExistentialPredicate)) :=
  let aV := sortDedupEPs tcx a
  let bV := sortDedupEPs tcx b
  if aV.length != bV.length then
    .err (.existentialMismatch (expectedFound R.aIsExpected a b))
  else
    relateEPsZipped R a b (aV.zip bV)

/-- The `Relate` impl for `hir::Unsafety`. -/
def relateUnsafety (R : TypeRelation) (a b : Unsafety) : Outcome Unsafety :=
  if a != b then .err (.unsafetyMismatch (expectedFound R.aIsExpected a b)) else .ok a

/-- The `Relate` impl for `abi::Abi`. -/
def relateAbi (R : TypeRelation) (a b : Nat) : Outcome Nat :=
  if a == b then .ok a else .err (.abiMismatch (expectedFound R.aIsExpected a b))

/-- The per-position error rewriting of the `FnSig` relate impl: `Sorts`
errors become `ArgumentSorts` and `Mutability` errors become
`ArgumentMutability`, tagged with the position. -/
def fnSigMapErr (i : Nat) : Outcome Ty → Outcome Ty
  | .err (.sorts ef) => .err (.argumentSorts ef i)
  | .err (.argumentSorts ef _) => .err (.argumentSorts ef i)
  | .err .mutability => .err (.argumentMutability i)
  | .err (.argumentMutability _) => .err (.argumentMutability i)
  | r => r

/-- The input/output loop of the `FnSig` relate impl: parameter positions
are related contravariantly, the chained final output pair with the plain
relation, all positions running through `fnSigMapErr`. -/
def relateSigPairs (R : TypeRelation) (i : Nat) (outPair : Ty × Ty) :
    List (Ty × Ty) → Outcome (List Ty)
  | [] => do
    let t ← fnSigMapErr i (R.tys outPair.1 outPair.2)
    pure [t]
  | (x, y) :: rest => do
    let t ← fnSigMapErr i
      (R.relateWithVarianceTy .contravariant .defaultInfo x y)
    let ts ← relateSigPairs R (i + 1) outPair rest
    pure (t :: ts)

/-- The `Relate` impl for `ty::FnSig`. -/
def FnSig.relate (R : TypeRelation) (a b : FnSig) : Outcome FnSig :=
  if a.cVariadic != b.cVariadic then
    .err (.variadicMismatch (expectedFound R.aIsExpected a.cVariadic b.cVariadic))
  else do
    let unsafety ← relateUnsafety R a.unsafety b.unsafety
    let abi ← relateAbi R a.abi b.abi
    if a.inputs.length != b.inputs.length then
      .err .argCount
    else do
      let tys ← relateSigPairs R 0 (a.output, b.output) (a.inputs.zip b.inputs)
      pure (.mk tys a.cVariadic unsafety abi)

/-- `relate::structurally_relate_tys`: relate two types structurally,
delegating nested comparisons to the relation object. -/
def structurally_relate_tys (tcx : TyCtxt) (R : TypeRelation) (a b : Ty) : Outcome Ty :=
  match a, b with
  | .infer _, _ => .bug
  | _, .infer _ => .bug
  | .bound _ _, _ => .bug
  | _, .bound _ _ => .bug
  | .error, _ => .ok .error
  | _, .error => .ok .error
  | .never, .never => .ok .never
  | .char, .char => .ok .char
  | .bool, .bool => .ok .bool
  | .int i, .int j =>
    if i == j then .ok (.int i) else .err (.sorts (expectedFound R.aIsExpected a b))
  | .uint i, .uint j =>
    if i == j then .ok (.uint i) else .err (.sorts (expectedFound R.aIsExpected a b))
  | .float i, .float j =>
    if i == j then .ok (.float i) else .err (.sorts (expectedFound R.aIsExpected a b))
  | .str, .str => .ok .str
  | .param p1, .param p2 =>
    if p1.index == p2.index then .ok (.param p1)
    else .err (.sorts (expectedFound R.aIsExpected a b))
  | .placeholder p1, .placeholder p2 =>
    if p1 == p2 then .ok (.placeholder p1)
    else .err (.sorts (expectedFound R.aIsExpected a b))
  | .adt aDef aArgs, .adt bDef bArgs =>
    if aDef == bDef then do
      let args ← R.relateItemArgs aDef aArgs bArgs
      pure (.adt aDef args)
    else .err (.sorts (expectedFound R.aIsExpected a b))
  | .foreign aId, .foreign bId =>
    if aId == bId then .ok (.foreign aId)
    else .err (.sorts (expectedFound R.aIsExpected a b))
  | .dynamic aObj aRegion aRepr, .dynamic bObj bRegion bRepr =>
    if aRepr == bRepr then do
      let regionBound ← R.regions aRegion bRegion
      let obj ← relateExistentialPredicates tcx R aObj bObj
      pure (.dynamic obj regionBound aRepr)
    else .err (.sorts (expectedFound R.aIsExpected a b))
  | .generator aId aArgs movability, .generator bId bArgs _ =>
    if aId == bId then do
      let args ← relateGenericArgs R aArgs bArgs
      pure (.generator aId args movability)
    else .err (.sorts (expectedFound R.aIsExpected a b))
  | .generatorWitness aTypes, .generatorWitness bTypes => do
    let types ← R.bindersGeneratorWitness (aTypes.mapBound GeneratorWitness.mk)
      (bTypes.mapBound GeneratorWitness.mk)
    pure (.generatorWitness (types.mapBound GeneratorWitness.types))
  | .generatorWitnessMIR aId aArgs, .generatorWitnessMIR bId bArgs =>
    if aId == bId then do
      let args ← relateGenericArgs R aArgs bArgs
      pure (.generatorWitnessMIR aId args)
    else .err (.sorts (expectedFound R.aIsExpected a b))
  | .closure aId aArgs, .closure bId bArgs =>
    if aId == bId then do
      let args ← relateGenericArgs R aArgs bArgs
      pure (.closure aId args)
    else .err (.sorts (expectedFound R.aIsExpected a b))
  | .rawPtr aMt, .rawPtr bMt => do
    let mt ← relate_type_and_mut R aMt bMt a
    pure (.rawPtr mt)
  | .ref aR aTy aMutbl, .ref bR bTy bMutbl => do
    let r ← R.regions aR bR
    let mt ← relate_type_and_mut R (.mk aTy aMutbl) (.mk bTy bMutbl) a
    match mt with
    | .mk ty mutbl => pure (.ref r ty mutbl)
  | .array aT szA, .array bT szB => do
    let t ← R.tys aT bT
    match R.consts szA szB with
    | .ok sz => .ok (.array t sz)
    | .err e =>
      match tcx.tryEvalTargetUsize szA, tcx.tryEvalTargetUsize szB with
      | some vA, some vB =>
        if vA != vB then .err (.fixedArraySize (expectedFound R.aIsExpected vA vB))
        else .err e
      | _, _ => .err e
    | .bug => .bug
  | .slice aT, .slice bT => do
    let t ← R.tys aT bT
    pure (.slice t)
  | .tuple asT, .tuple bsT =>
    if asT.length == bsT.length then do
      let ts ← relateZipped (fun p => R.tys p.1 p.2) (asT.zip bsT)
      pure (.tuple ts)
    else if !(asT.isEmpty || bsT.isEmpty) then
      .err (.tupleSize (expectedFound R.aIsExpected asT.length bsT.length))
    else .err (.sorts (expectedFound R.aIsExpected a b))
  | .fnDef aDefId aArgs, .fnDef bDefId bArgs =>
    if aDefId == bDefId then do
      let args ← R.relateItemArgs aDefId aArgs bArgs
      pure (.fnDef aDefId args)
    else .err (.sorts (expectedFound R.aIsExpected a b))
  | .fnPtr aFty, .fnPtr bFty => do
    let fty ← R.bindersFnSig aFty bFty
    pure (.fnPtr fty)
  | .alias .opaq (.mk aDefId aArgs), .alias .opaq (.mk bDefId bArgs) =>
    if aDefId == bDefId then do
      let args ← relate_args_with_variances tcx R aDefId (tcx.variancesOf aDefId)
        aArgs bArgs false
      pure (.alias .opaq (.mk aDefId args))
    else do
      let aliasTy ← AliasTy.relate R (.mk aDefId aArgs) (.mk bDefId bArgs)
      pure (.alias .opaq aliasTy)
  | .alias aKind aData, .alias bKind bData => do
    let aliasTy ← AliasTy.relate R aData bData
    if aKind == bKind then pure (.alias aKind aliasTy) else .bug
  | _, _ => .err (.sorts (expectedFound R.aIsExpected a b))

/-- The per-argument loop of the `Expr::FunctionCall` arm of
`structurally_relate_consts`. -/
def relateConstPairs (f : Const → Const → Outcome Const) :
    List (Const × Const) → Outcome (List Const)
  | [] => .ok []
  | (x, y) :: rest => do
    let c ← f x y
    let cs ← relateConstPairs f rest
    pure (c :: cs)

/-- `relate::structurally_relate_consts`: relate two consts structurally,
delegating nested comparisons to the relation object. -/
def structurally_relate_consts (tcx : TyCtxt) (R : TypeRelation) (a0 b0 : Const) :
    Outcome Const :=
  let a := if tcx.genericConstExprs then tcx.expandAbstractConsts a0 else a0
  let b := if tcx.genericConstExprs then tcx.expandAbstractConsts b0 else b0
  match a.kind, b.kind with
  | .infer _, _ => .bug
  | _, .infer _ => .bug
  | .error, _ => .ok a
  | _, .error => .ok b
  | .param aIdx _, .param bIdx _ =>
    if aIdx == bIdx then .ok a else .err (.constMismatch (expectedFound R.aIsExpected a b))
  | .placeholder p1, .placeholder p2 =>
    if p1 == p2 then .ok a else .err (.constMismatch (expectedFound R.aIsExpected a b))
  | .value aVal, .value bVal =>
    if aVal == bVal then .ok a else .err (.constMismatch (expectedFound R.aIsExpected a b))
  | .unevaluated (.mk auDef auArgs), .unevaluated (.mk buDef buArgs) =>
    if auDef == buDef then
      if tyBeq a.ty b.ty then do
        let args ← R.relateWithVarianceArgs .invariant .defaultInfo auArgs buArgs
        pure (.mk (.unevaluated (.mk auDef args)) a.ty)
      else .bug
    else .err (.constMismatch (expectedFound R.aIsExpected a b))
  | .expr ae, .expr be =>
    match ae, be with
    | .binop aOp al ar, .binop bOp bl br =>
      if aOp == bOp then do
        let _ ← R.tys al.ty bl.ty
        let _ ← R.tys ar.ty br.ty
        let l ← R.consts al bl
        let r ← R.consts ar br
        pure (.mk (.expr (.binop aOp l r)) a.ty)
      else .err (.constMismatch (expectedFound R.aIsExpected a b))
    | .unop aOp av, .unop bOp bv =>
      if aOp == bOp then do
        let _ ← R.tys av.ty bv.ty
        let v ← R.consts av bv
        pure (.mk (.expr (.unop aOp v)) a.ty)
      else .err (.constMismatch (expectedFound R.aIsExpected a b))
    | .cast aK av at2, .cast bK bv bt2 =>
      if aK == bK then do
        let _ ← R.tys av.ty bv.ty
        let v ← R.consts av bv
        let t ← R.tys at2 bt2
        pure (.mk (.expr (.cast aK v t)) a.ty)
      else .err (.constMismatch (expectedFound R.aIsExpected a b))
    | .functionCall af aa, .functionCall bf ba =>
      if aa.length == ba.length then do
        let _ ← R.tys af.ty bf.ty
        let func ← R.consts af bf
        let relatedArgs ← relateConstPairs R.consts (aa.zip ba)
        pure (.mk (.expr (.functionCall func relatedArgs)) a.ty)
      else .err (.constMismatch (expectedFound R.aIsExpected a b))
    | _, _ => .err (.constMismatch (expectedFound R.aIsExpected a b))
  | _, _ => .err (.constMismatch (expectedFound R.aIsExpected a b))

/-- `relate::relate_type_and_mut2`. -/
def relate_type_and_mut2 (R : TypeRelation2) (a b : TypeAndMut) (baseTy : Ty) :
    Outcome Unit :=
  match a, b with
  | .mk aTy aMutbl, .mk bTy bMutbl =>
    if aMutbl != bMutbl then .err .mutability
    else
      let variance := if aMutbl then Variance.invariant else Variance.covariant
      let info := if aMutbl then VarianceDiagInfo.invariant baseTy 0
        else VarianceDiagInfo.defaultInfo
      do
        let _ ← R.relateWithVarianceTy variance info aTy bTy
        pure ()

/-- The element loop of `relate::relate_args_with_variances2`. -/
def relateArgsWithVariancesGo2 (tcx : TyCtxt) (R : TypeRelation2) (tyDefId : Nat)
    (variances : List Variance) (aArg : List GenericArg) (fetchTyForDiag : Bool)
    (i : Nat) : List (GenericArg × GenericArg) → Outcome Unit
  | [] => .ok ()
  | (a, b) :: rest =>
    match variances.get? i with
    | none => .bug
    | some variance =>
      let varianceInfo :=
        if variance == Variance.invariant && fetchTyForDiag then
          VarianceDiagInfo.invariant (tcx.typeOfInstantiated tyDefId aArg) i
        else VarianceDiagInfo.defaultInfo
      do
        let _ ← R.relateWithVarianceArg variance varianceInfo a b
        relateArgsWithVariancesGo2 tcx R tyDefId variances aArg fetchTyForDiag (i + 1) rest

/-- `relate::relate_args_with_variances2`. -/
def relate_args_with_variances2 (tcx : TyCtxt) (R : TypeRelation2) (tyDefId : Nat)
    (variances : List Variance) (aArg bArg : List GenericArg) (fetchTyForDiag : Bool) :
    Outcome Unit :=
  relateArgsWithVariancesGo2 tcx R tyDefId variances aArg fetchTyForDiag 0 (aArg.zip bArg)

/-- Relate a zipped list of pairs element-wise for the unit-returning
relation interface. -/
def relateZipped2 (f : α × α → Outcome Unit) : List (α × α) → Outcome Unit
  | [] => .ok ()
  | p :: rest => do
    let _ ← f p
    relateZipped2 f rest

/-- The `Relate2` impl for `GenericArgsRef`. -/
def relateGenericArgs2 (R : TypeRelation2) (a b : List GenericArg) : Outcome Unit :=
  relateZipped2 (fun p => R.relateWithVarianceArg .invariant .defaultInfo p.1 p.2) (a.zip b)

/-- The `Relate2` impl for `ty::AliasTy`. -/
def AliasTy.relate2 (R : TypeRelation2) (a b : AliasTy) : Outcome Unit :=
  if a.defId != b.defId then
    .err (.projectionMismatched (expectedFound R.aIsExpected a.defId b.defId))
  else do
    let _ ← relateGenericArgs2 R a.args b.args
    pure ()

/-- The element loop of the `Relate2` impl for existential-predicate
lists. -/
def relateEPsZipped2 (R : TypeRelation2) (a b : List (Binder ExistentialPredicate)) :
    List (Binder ExistentialPredicate × Binder ExistentialPredicate) → Outcome Unit
  | [] => .ok ()
  | (epA, epB) :: rest =>
    let step : Outcome Unit :=
      match epA.skipBinder, epB.skipBinder with
      | .trait ta, .trait tb => R.bindersExistentialTraitRef (epA.rebind ta) (epB.rebind tb)
      | .proj pa, .proj pb => R.bindersExistentialProjection (epA.rebind pa) (epB.rebind pb)
      | .autoTrait da, .autoTrait db =>
        if da == db then .ok ()
        else .err (.existentialMismatch (expectedFound R.aIsExpected a b))
      | _, _ => .err (.existentialMismatch (expectedFound R.aIsExpected a b))
    do
      let _ ← step
      relateEPsZipped2 R a b rest

/-- The `Relate2` impl for `&ty::List<ty::PolyExistentialPredicate>`. -/
def relateExistentialPredicates2 (tcx : TyCtxt) (R : TypeRelation2)
    (a b : List (Binder ExistentialPredicate)) : Outcome Unit :=
  let aV := sortDedupEPs tcx a
  let bV := sortDedupEPs tcx b
  if aV.length != bV.length then
    .err (.existentialMismatch (expectedFound R.aIsExpected a b))
  else
    relateEPsZipped2 R a b (aV.zip bV)

/-- The `Relate2` impl for `hir::Unsafety`. -/
def relateUnsafety2 (R : TypeRelation2) (a b : Unsafety) : Outcome Unit :=
  if a != b then .err (.unsafetyMismatch (expectedFound R.aIsExpected a b)) else .ok ()

/-- The `Relate2` impl for `abi::Abi`. -/
def relateAbi2 (R : TypeRelation2) (a b : Nat) : Outcome Unit :=
  if a == b then .ok () else .err (.abiMismatch (expectedFound R.aIsExpected a b))

/-- The per-position error rewriting of the `FnSig` relate2 impl. -/
def fnSigMapErr2 (i : Nat) : Outcome Unit → Outcome Unit
  | .err (.sorts ef) => .err (.argumentSorts ef i)
  | .err (.argumentSorts ef _) => .err (.argumentSorts ef i)
  | .err .mutability => .err (.argumentMutability i)
  | .err (.argumentMutability _) => .err (.argumentMutability i)
  | r => r

/-- The position loop of the `FnSig` relate2 impl over the zipped
`inputs_and_output` lists: the last position uses the plain relation, all
earlier ones the contravariant one. -/
def relateSigPairs2 (R : TypeRelation2) (len : Nat) (i : Nat) :
    List (Ty × Ty) → Outcome Unit
  | [] => .ok ()
  | (x, y) :: rest =>
    let r := if i == len - 1 then R.tys x y
      else R.relateWithVarianceTy .contravariant .defaultInfo x y
    do
      let _ ← fnSigMapErr2 i r
      relateSigPairs2 R len (i + 1) rest

/-- The `Relate2` impl for `ty::FnSig`. -/
def FnSig.relate2 (R : TypeRelation2) (a b : FnSig) : Outcome Unit :=
  if a.cVariadic != b.cVariadic then
    .err (.variadicMismatch (expectedFound R.aIsExpected a.cVariadic b.cVariadic))
  else do
    let _ ← relateUnsafety2 R a.unsafety b.unsafety
    let _ ← relateAbi2 R a.abi b.abi
    if a.inputs.length != b.inputs.length then
      .err .argCount
    else
      relateSigPairs2 R a.inputsAndOutput.length 0 (a.inputsAndOutput.zip b.inputsAndOutput)

/-- `relate::structurally_relate_tys2`. -/
def structurally_relate_tys2 (tcx : TyCtxt) (R : TypeRelation2) (a b : Ty) : Outcome Unit :=
  match a, b with
  | .infer _, _ => .bug
  | _, .infer _ => .bug
  | .bound _ _, _ => .bug
  | _, .bound _ _ => .bug
  | .error, _ => .ok ()
  | _, .error => .ok ()
  | .never, .never => .ok ()
  | .char, .char => .ok ()
  | .bool, .bool => .ok ()
  | .int i, .int j =>
    if i == j then .ok () else .err (.sorts (expectedFound R.aIsExpected a b))
  | .uint i, .uint j =>
    if i == j then .ok () else .err (.sorts (expectedFound R.aIsExpected a b))
  | .float i, .float j =>
    if i == j then .ok () else .err (.sorts (expectedFound R.aIsExpected a b))
  | .str, .str => .ok ()
  | .param p1, .param p2 =>
    if p1.index == p2.index then .ok ()
    else .err (.sorts (expectedFound R.aIsExpected a b))
  | .placeholder p1, .placeholder p2 =>
    if p1 == p2 then .ok ()
    else .err (.sorts (expectedFound R.aIsExpected a b))
  | .adt aDef aArgs, .adt bDef bArgs =>
    if aDef == bDef then do
      let _ ← R.relateItemArgs aDef aArgs bArgs
      pure ()
    else .err (.sorts (expectedFound R.aIsExpected a b))
  | .foreign aId, .foreign bId =>
    if aId == bId then .ok ()
    else .err (.sorts (expectedFound R.aIsExpected a b))
  | .dynamic aObj aRegion aRepr, .dynamic bObj bRegion bRepr =>
    if aRepr == bRepr then do
      let _ ← R.regions aRegion bRegion
      let _ ← relateExistentialPredicates2 tcx R aObj bObj
      pure ()
    else .err (.sorts (expectedFound R.aIsExpected a b))
  | .generator aId aArgs _, .generator bId bArgs _ =>
    if aId == bId then do
      let _ ← relateGenericArgs2 R aArgs bArgs
      pure ()
    else .err (.sorts (expectedFound R.aIsExpected a b))
  | .generatorWitness aTypes, .generatorWitness bTypes => do
    let _ ← R.bindersGeneratorWitness (aTypes.mapBound GeneratorWitness.mk)
      (bTypes.mapBound GeneratorWitness.mk)
    pure ()
  | .generatorWitnessMIR aId aArgs, .generatorWitnessMIR bId bArgs =>
    if aId == bId then do
      let _ ← relateGenericArgs2 R aArgs bArgs
      pure ()
    else .err (.sorts (expectedFound R.aIsExpected a b))
  | .closure aId aArgs, .closure bId bArgs =>
    if aId == bId then do
      let _ ← relateGenericArgs2 R aArgs bArgs
      pure ()
    else .err (.sorts (expectedFound R.aIsExpected a b))
  | .rawPtr aMt, .rawPtr bMt => do
    let _ ← relate_type_and_mut2 R aMt bMt a
    pure ()
  | .ref aR aTy aMutbl, .ref bR bTy bMutbl => do
    let _ ← R.regions aR bR
    let _ ← relate_type_and_mut2 R (.mk aTy aMutbl) (.mk bTy bMutbl) a
    pure ()
  | .array aT szA, .array bT szB => do
    let _ ← R.tys aT bT
    match R.consts szA szB with
    | .ok () => .ok ()
    | .err e =>
      match tcx.tryEvalTargetUsize szA, tcx.tryEvalTargetUsize szB with
      | some vA, some vB =>
        if vA != vB then .err (.fixedArraySize (expectedFound R.aIsExpected vA vB))
        else .err e
      | _, _ => .err e
    | .bug => .bug
  | .slice aT, .slice bT => do
    let _ ← R.tys aT bT
    pure ()
  | .tuple asT, .tuple bsT =>
    if asT.length == bsT.length then
      relateZipped2 (fun p => R.tys p.1 p.2) (asT.zip bsT)
    else if !(asT.isEmpty || bsT.isEmpty) then
      .err (.tupleSize (expectedFound R.aIsExpected asT.length bsT.length))
    else .err (.sorts (expectedFound R.aIsExpected a b))
  | .fnDef aDefId aArgs, .fnDef bDefId bArgs =>
    if aDefId == bDefId then do
      let _ ← R.relateItemArgs aDefId aArgs bArgs
      pure ()
    else .err (.sorts (expectedFound R.aIsExpected a b))
  | .fnPtr aFty, .fnPtr bFty => do
    let _ ← R.bindersFnSig aFty bFty
    pure ()
  | .alias .opaq (.mk aDefId aArgs), .alias .opaq (.mk bDefId bArgs) =>
    if aDefId == bDefId then do
      let _ ← relate_args_with_variances2 tcx R aDefId (tcx.variancesOf aDefId)
        aArgs bArgs false
      pure ()
    else do
      let _ ← AliasTy.relate2 R (.mk aDefId aArgs) (.mk bDefId bArgs)
      pure ()
  | .alias aKind aData, .alias bKind bData => do
    let _ ← AliasTy.relate2 R aData bData
    if aKind == bKind then pure () else .bug
  | _, _ => .err (.sorts (expectedFound R.aIsExpected a b))

/-- The per-argument loop of the `Expr::FunctionCall` arm of
`structurally_relate_consts2`. -/
def relateConstPairs2 (f : Const → Const → Outcome Unit) :
    List (Const × Const) → Outcome Unit
  | [] => .ok ()
  | (x, y) :: rest => do
    let _ ← f x y
    relateConstPairs2 f rest

/-- `relate::structurally_relate_consts2`. -/
def structurally_relate_consts2 (tcx : TyCtxt) (R : TypeRelation2) (a0 b0 : Const) :
    Outcome Unit :=
  let a := if tcx.genericConstExprs then tcx.expandAbstractConsts a0 else a0
  let b := if tcx.genericConstExprs then tcx.expandAbstractConsts b0 else b0
  match a.kind, b.kind with
  | .infer _, _ => .bug
  | _, .infer _ => .bug
  | .error, _ => .ok ()
  | _, .error => .ok ()
  | .param aIdx _, .param bIdx _ =>
    if aIdx == bIdx then .ok () else .err (.constMismatch (expectedFound R.aIsExpected a b))
  | .placeholder p1, .placeholder p2 =>
    if p1 == p2 then .ok () else .err (.constMismatch (expectedFound R.aIsExpected a b))
  | .value aVal, .value bVal =>
    if aVal == bVal then .ok () else .err (.constMismatch (expectedFound R.aIsExpected a b))
  | .unevaluated (.mk auDef auArgs), .unevaluated (.mk buDef buArgs) =>
    if auDef == buDef then
      if tyBeq a.ty b.ty then do
        let _ ← R.relateWithVarianceArgs .invariant .defaultInfo auArgs buArgs
        pure ()
      else .bug
    else .err (.constMismatch (expectedFound R.aIsExpected a b))
  | .expr ae, .expr be =>
    match ae, be with
    | .binop aOp al ar, .binop bOp bl br =>
      if aOp == bOp then do
        let _ ← R.tys al.ty bl.ty
        let _ ← R.tys ar.ty br.ty
        let _ ← R.consts al bl
        let _ ← R.consts ar br
        pure ()
      else .err (.constMismatch (expectedFound R.aIsExpected a b))
    | .unop aOp av, .unop bOp bv =>
      if aOp == bOp then do
        let _ ← R.tys av.ty bv.ty
        let _ ← R.consts av bv
        pure ()
      else .err (.constMismatch (expectedFound R.aIsExpected a b))
    | .cast aK av at2, .cast bK bv bt2 =>
      if aK == bK then do
        let _ ← R.tys av.ty bv.ty
        let _ ← R.consts av bv
        let _ ← R.tys at2 bt2
        pure ()
      else .err (.constMismatch (expectedFound R.aIsExpected a b))
    | .functionCall af aa, .functionCall bf ba =>
      if aa.length == ba.length then do
        let _ ← R.tys af.ty bf.ty
        let _ ← R.consts af bf
        relateConstPairs2 R.consts (aa.zip ba)
      else .err (.constMismatch (expectedFound R.aIsExpected a b))
    | _, _ => .err (.constMismatch (expectedFound R.aIsExpected a b))
  | _, _ => .err (.constMismatch (expectedFound R.aIsExpected a b))

/-! ## Query plumbing: depth-limited queries (rustc_query_impl/src/plumbing.rs) -/

/-- Modelled from the spec: `Limit::value_within_limit` of the session
recursion limit (the `Limit` helper type is not among the provided sources;
the spec describes the check as exceeding the configured recursion
limit). -/
def valueWithinLimit (limit value : Nat) : Bool :=
  decide (value ≤ limit)

/-- The suggested-limit computation of `QueryCtxt::depth_limit_error`:
`Limit(0) => Limit(2), limit => limit * 2`.  The `Mul` impl of `Limit` is
not among the provided sources and is modelled from the spec, which says
the limit is adaptively suggested as double the previous limit. -/
def suggestedLimitAfterOverflow : Nat → Nat
  | 0 => 2
  | l => l * 2

/-- Result of `QueryCtxt::start_query` for a depth-limited query: either
the fatal, user-visible `QueryOverflow` diagnostic (carrying the suggested
new limit) emitted by `depth_limit_error` via `emit_fatal`, or the computed
result produced under the incremented query depth. -/
inductive StartQueryResult (α : Type) where
  | overflow (suggestedLimit : Nat)
  | completed (result : α)

/-- `QueryCtxt::start_query`: check the recursion limit against the current
`ImplicitCtxt` query depth when the query is depth-limited, then run the
computation with the depth incremented by `depth_limit as usize`. -/
def startQuery (depthLimit : Bool) (recursionLimit : Nat) (currentDepth : Nat)
    (compute : Nat → α) : StartQueryResult α :=
  if depthLimit && !(valueWithinLimit recursionLimit currentDepth) then
    .overflow (suggestedLimitAfterOverflow recursionLimit)
  else
    .completed (compute (currentDepth + (if depthLimit then 1 else 0)))

/-! ## Associated-type bounds: the GAT bound-variable remap
(rustc_hir_analysis/src/collect/item_bounds.rs) -/

/-- `ty::INNERMOST`. -/
def INNERMOST : Nat := 0

/-- A trailing generic argument of a GAT self type, as inspected by the
remap check of `associated_type_bounds`: each argument is a lifetime, type
or const that either is a bound variable at some de Bruijn depth or is
anything else. -/
inductive GatArg where
  | reBound (debruijn : Nat) (bv : Nat)
  | reOther
  | tyBound (debruijn : Nat) (bv : Nat)
  | tyOther
  | ctBound (debruijn : Nat) (bv : Nat)
  | ctOther
deriving BEq, DecidableEq, Repr

/-- The view of a clause self type walked by the projection-stripping loop
of `associated_type_bounds`: a (possibly nested) projection carrying its
trait reference, the trailing arguments beyond the trait's own (the slice
`args[item_trait_ref.args.len()..]` of the source) and its own self type,
or a non-projection type. -/
inductive ClauseSelfTy where
  | proj (traitRef : Nat) (trailingArgs : List GatArg) (selfTy : ClauseSelfTy)
  | leaf
deriving BEq, DecidableEq, Repr

/-- The projection-stripping loop: walk into nested projections until one
whose trait reference is the item's own is found, yielding its trailing
GAT arguments; a non-projection self type aborts with `None`. -/
def gatVarsOf (itemTraitRef : Nat) : ClauseSelfTy → Option (List GatArg)
  | .proj tr args selfTy =>
    if tr == itemTraitRef then some args else gatVarsOf itemTraitRef selfTy
  | .leaf => none

/-- Does a GAT argument name a bound variable at the innermost binder?
The source checks `ReBound(INNERMOST, bv)` for lifetimes,
`ty::Bound(INNERMOST, bv)` for types and `ConstKind::Bound(INNERMOST, bv)`
for consts; anything else makes the remap abort. -/
def gatArgBoundVar : GatArg → Option Nat
  | .reBound d v => if d == INNERMOST then some v else none
  | .tyBound d v => if d == INNERMOST then some v else none
  | .ctBound d v => if d == INNERMOST then some v else none
  | _ => none

/-- The mapping-construction loop of `associated_type_bounds`: zip the
GAT's own generic parameters with the trailing arguments; every argument
must be a bound variable at the innermost binder, and inserting a variable
that is already present (`existing.is_some()`) aborts with `None`. -/
def buildGatMapping : List Nat → List GatArg → List (Nat × Nat) →
    Option (List (Nat × Nat))
  | p :: ps, v :: vs, m =>
    match gatArgBoundVar v with
    | none => none
    | some bv =>
      if (m.lookup bv).isSome then none
      else buildGatMapping ps vs (m ++ [(bv, p)])
  | _, _, m => some m

/-- `ty::BoundVariableKind` (tags only). -/
inductive BoundVariableKind where
  | ty
  | region
  | const
deriving BEq, DecidableEq, Repr

/-- A value stored in the `MapAndCompressBoundVars` mapping: either an
item generic parameter (`tcx.mk_param_from_def`) or a freshly renumbered
still-bound variable at `INNERMOST`. -/
inductive MappedGArg where
  | param (p : Nat)
  | stillBound (v : Nat) (kind : BoundVariableKind)
deriving BEq, DecidableEq, Repr

/-- The predicate body folded by `MapAndCompressBoundVars`, abstracted to
the tree structure the folder interacts with: bound variables of each kind
(with their de Bruijn depth), parameter references, inner binders, and
inert structure. -/
inductive PTerm where
  | boundTy (debruijn : Nat) (bv : Nat)
  | boundRe (debruijn : Nat) (bv : Nat)
  | boundCt (debruijn : Nat) (bv : Nat)
  | paramRef (p : Nat)
  | node (kids : List PTerm)
  | binder (body : PTerm)
  | leaf

/-- The mutable state of `MapAndCompressBoundVars`: the current binder
depth, the list of surviving (unsubstituted, renumbered) bound variables,
and the bound-variable mapping. -/
structure FolderState where
  binder : Nat
  stillBoundVars : List BoundVariableKind
  mapping : List (Nat × MappedGArg)

/-- The shared bound-variable case of `fold_ty` / `fold_region` /
`fold_const`: look the variable up in the mapping; a missing entry
allocates the next still-bound variable index and extends the mapping; the
mapped value is then shifted by the current binder depth (`shift_vars`), so
a parameter stays itself and a fresh `INNERMOST` variable moves to the
current depth. -/
def foldBoundVar (s : FolderState) (kind : BoundVariableKind)
    (mk : Nat → Nat → PTerm) (v : Nat) : PTerm × FolderState :=
  match s.mapping.lookup v with
  | some (.param p) => (.paramRef p, s)
  | some (.stillBound nv _) => (mk s.binder nv, s)
  | none =>
    let nv := s.stillBoundVars.length
    (mk s.binder nv,
      FolderState.mk s.binder (s.stillBoundVars ++ [kind])
        (s.mapping ++ [(v, .stillBound nv kind)]))

mutual

/-- The `TypeFolder` impl of `MapAndCompressBoundVars`: bound variables at
the current depth are remapped, `fold_binder` shifts the depth in and out
around the body, everything else is folded structurally. -/
def foldPTerm (s : FolderState) : PTerm → PTerm × FolderState
  | .boundTy d v =>
    if d == s.binder then foldBoundVar s .ty PTerm.boundTy v else (.boundTy d v, s)
  | .boundRe d v =>
    if d == s.binder then foldBoundVar s .region PTerm.boundRe v else (.boundRe d v, s)
  | .boundCt d v =>
    if d == s.binder then foldBoundVar s .const PTerm.boundCt v else (.boundCt d v, s)
  | .paramRef p => (.paramRef p, s)
  | .leaf => (.leaf, s)
  | .node kids =>
    let r := foldPTermList s kids
    (.node r.1, r.2)
  | .binder body =>
    let r := foldPTerm (FolderState.mk (s.binder + 1) s.stillBoundVars s.mapping) body
    (.binder r.1, FolderState.mk s.binder r.2.stillBoundVars r.2.mapping)
termination_by t => sizeOf t

/-- Fold a list of children, threading the folder state left to right. -/
def foldPTermList (s : FolderState) : List PTerm → List PTerm × FolderState
  | [] => ([], s)
  | k :: ks =>
    let r := foldPTerm s k
    let rs := foldPTermList r.2 ks
    (r.1 :: rs.1, rs.2)
termination_by l => sizeOf l

end

/-- An inherited trait where-clause as seen by the `bounds_from_parent`
closure of `associated_type_bounds`: whether its kind exposes a self type
(`Trait` / `Projection` / `TypeOutlives`), the self-type view, the
binder-skipped predicate body, and the clause's own bound-variable
kinds. -/
structure ParentClause where
  hasSelfTy : Bool
  selfTy : ClauseSelfTy
  body : PTerm
  bvars : List BoundVariableKind

/-- A computed item bound: the (possibly remapped) predicate body rebound
with the surviving bound-variable kinds
(`Binder::bind_with_vars(pred, still_bound_vars)`). -/
structure ItemBound where
  body : PTerm
  bvars : List BoundVariableKind

/-- One step of the `bounds_from_parent` `filter_map` closure of
`associated_type_bounds` for a single inherited clause: extract the
trailing GAT arguments by stripping nested projections, pass non-GAT
clauses through unchanged, build the distinct-bound-variable mapping and
on success fold the predicate with `MapAndCompressBoundVars`; every
failure silently yields `none` — the `Option` result type is the only
failure channel, there is no error value and no diagnostic. -/
def associated_type_bound_from_parent (itemTraitRef : Nat) (numParams : Nat)
    (clause : ParentClause) : Option ItemBound :=
  if !clause.hasSelfTy then none
  else
    match gatVarsOf itemTraitRef clause.selfTy with
    | none => none
    | some gatVars =>
      if gatVars.isEmpty then some (ItemBound.mk clause.body clause.bvars)
      else
        match buildGatMapping (List.range numParams) gatVars [] with
        | none => none
        | some m =>
          let st := FolderState.mk INNERMOST []
            (m.map (fun p => (p.1, MappedGArg.param p.2)))
          let r := foldPTerm st clause.body
          some (ItemBound.mk r.1 r.2.stillBoundVars)

/-! ## The RemoveZsts MIR pass (rustc_mir_transform/src/remove_zsts.rs)

The MIR data model (operands, places, statements, terminators, bodies) is
not among the provided sources and is modelled from the spec; the visitor
logic below is translated from `remove_zsts.rs`.  `consider_optimizing`
(the optimization-fuel hook, also outside the sources) is modelled as
always permitting the rewrite. -/

/-- The result of `tcx.layout_of`: only zero-sizedness is relevant. -/
structure Layout where
  isZst : Bool

/-- A layout oracle modelling `tcx.layout_of(param_env.and(ty))`: `none`
models a layout error. -/
abbrev LayoutOracle := Ty → Option Layout

/-- `remove_zsts::maybe_zst`: a cheap, approximate check to avoid
unnecessary `layout_of` calls. -/
def maybe_zst : Ty → Bool
  | .adt _ _ => true
  | .array _ _ => true
  | .closure _ _ => true
  | .tuple _ => true
  | .alias .opaq _ => true
  | .fnDef _ _ => true
  | .never => true
  | _ => false

/-- The `Replacer` of `remove_zsts.rs` (its `tcx`/`param_env` collapse into
the layout oracle). -/
structure Replacer where
  layoutOf : LayoutOracle
  localDecls : List Ty

/-- `Replacer::is_zst`: `maybe_zst` pre-filter, then the layout query; a
layout error means not-a-ZST. -/
def Replacer.is_zst (r : Replacer) (ty : Ty) : Bool :=
  if !maybe_zst ty then false
  else
    match r.layoutOf ty with
    | some layout => layout.isZst
    | none => false

/-- A MIR constant value: the canonical zero-sized value or an ordinary
scalar. -/
inductive ConstVal where
  | zeroSized
  | scalar (n : Nat)
deriving BEq, DecidableEq, Repr

/-- A MIR constant operand (`ConstantKind::Val(value, ty)`). -/
structure Constant where
  val : ConstVal
  ty : Ty

/-- `Replacer::make_zst`: the canonical zero-sized constant at a type. -/
def make_zst (ty : Ty) : Constant := Constant.mk .zeroSized ty

/-- A MIR place, reduced to its local (projections are not needed by the
pass's type lookups in this model). -/
structure Place where
  localIdx : Nat

/-- `Place::ty` through the body's local declarations. -/
def placeTy (decls : List Ty) (p : Place) : Option Ty := decls.get? p.localIdx

/-- A MIR operand. -/
inductive Operand where
  | copy (p : Place)
  | move (p : Place)
  | constant (c : Constant)

/-- `Operand::ty`. -/
def operandTy (decls : List Ty) : Operand → Option Ty
  | .copy p => placeTy decls p
  | .move p => placeTy decls p
  | .constant c => some c.ty

/-- `Replacer::visit_operand`: constants are skipped; a
non-constant operand of statically zero-sized type is replaced by the
canonical zero-sized constant. -/
def visitOperand (r : Replacer) (op : Operand) : Operand :=
  match op with
  | .constant _ => op
  | _ =>
    match operandTy r.localDecls op with
    | some opTy => if r.is_zst opTy then .constant (make_zst opTy) else op
    | none => op

/-- A MIR rvalue, reduced to its operand structure. -/
inductive Rvalue where
  | use (op : Operand)
  | aggregate (ops : List Operand)
  | nullaryOp

/-- The default `super_rvalue` traversal: visit every nested operand. -/
def visitRvalue (r : Replacer) : Rvalue → Rvalue
  | .use op => .use (visitOperand r op)
  | .aggregate ops => .aggregate (ops.map (visitOperand r))
  | .nullaryOp => .nullaryOp

/-- A MIR statement. -/
inductive Statement where
  | assign (p : Place) (rv : Rvalue)
  | deinit (p : Place)
  | storageLive (l : Nat)
  | storageDead (l : Nat)
  | nop

/-- Is the type of this place statically zero-sized? -/
def placeIsZst (r : Replacer) (p : Place) : Bool :=
  match placeTy r.localDecls p with
  | some t => r.is_zst t
  | none => false

/-- `Replacer::visit_statement`: an `Assign` or `Deinit` whose place has
zero-sized type becomes a `Nop` (`make_nop`); otherwise the default
traversal visits the nested operands. -/
def visitStatement (r : Replacer) : Statement → Statement
  | .assign p rv => if placeIsZst r p then .nop else .assign p (visitRvalue r rv)
  | .deinit p => if placeIsZst r p then .nop else .deinit p
  | s => s

/-- A MIR terminator, reduced to its operand structure. -/
inductive Terminator where
  | goto (bb : Nat)
  | ret
  | switchInt (disc : Operand) (targets : List Nat)
  | call (func : Operand) (args : List Operand) (dest : Place) (target : Nat)

/-- The default `super_terminator` traversal: visit every nested
operand. -/
def visitTerminator (r : Replacer) : Terminator → Terminator
  | .goto bb => .goto bb
  | .ret => .ret
  | .switchInt disc targets => .switchInt (visitOperand r disc) targets
  | .call f args dest target =>
    .call (visitOperand r f) (args.map (visitOperand r)) dest target

/-- A MIR basic block. -/
structure BasicBlockData where
  statements : List Statement
  terminator : Terminator

/-- `visit_basic_block_data`. -/
def visitBasicBlockData (r : Replacer) (bb : BasicBlockData) : BasicBlockData :=
  BasicBlockData.mk (bb.statements.map (visitStatement r)) (visitTerminator r bb.terminator)

/-- The contents of one `VarDebugInfo` entry. -/
inductive VarDebugInfoContents where
  | const (c : Constant)
  | place (p : Place)
  | composite (ty : Ty) (fragments : Nat)

/-- `Replacer::visit_var_debug_info`: a debug-info place (or composite)
of zero-sized type is replaced by the canonical zero-sized constant. -/
def visitVarDebugInfo (r : Replacer) : VarDebugInfoContents → VarDebugInfoContents
  | .const c => .const c
  | .place p =>
    match placeTy r.localDecls p with
    | some pTy => if r.is_zst pTy then .const (make_zst pTy) else .place p
    | none => .place p
  | .composite ty frags =>
    if r.is_zst ty then .const (make_zst ty) else .composite ty frags

/-- A MIR body: whether its definition has generator type
(`tcx.type_of(body.source.def_id()).is_generator()`), its local
declarations, debug info and basic blocks. -/
structure Body where
  isGenerator : Bool
  localDecls : List Ty
  varDebugInfo : List VarDebugInfoContents
  basicBlocks : List BasicBlockData

/-- `RemoveZsts::run_pass`: generator bodies are skipped (to avoid query
cycles); otherwise the `Replacer` visits every debug-info entry and every
basic block. -/
def RemoveZsts.run_pass (layoutOf : LayoutOracle) (body : Body) : Body :=
  if body.isGenerator then body
  else
    let replacer := Replacer.mk layoutOf body.localDecls
    Body.mk body.isGenerator body.localDecls
      (body.varDebugInfo.map (visitVarDebugInfo replacer))
      (body.basicBlocks.map (visitBasicBlockData replacer))

/-- The operands nested in a terminator (those the default traversal
visits). -/
def terminatorOperands : Terminator → List Operand
  | .goto _ => []
  | .ret => []
  | .switchInt d _ => [d]
  | .call f args _ _ => f :: args

/-! ## Auxiliary notions used by the theorems -/

/-- Forget the payload of a successful outcome, for comparing a
value-returning relation run against a unit-returning one. -/
def Outcome.toU : Outcome α → Outcome Unit
  | .ok _ => .ok ()
  | .err e => .err e
  | .bug => .bug

/-- The top-level type constructor, as a discriminant. -/
def tyTag : Ty → Nat
  | .bool => 0
  | .char => 1
  | .int _ => 2
  | .uint _ => 3
  | .float _ => 4
  | .adt _ _ => 5
  | .foreign _ => 6
  | .str => 7
  | .array _ _ => 8
  | .slice _ => 9
  | .rawPtr _ => 10
  | .ref _ _ _ => 11
  | .fnDef _ _ => 12
  | .fnPtr _ => 13
  | .dynamic _ _ _ => 14
  | .closure _ _ => 15
  | .generator _ _ _ => 16
  | .generatorWitness _ => 17
  | .generatorWitnessMIR _ _ => 18
  | .never => 19
  | .tuple _ => 20
  | .alias _ _ => 21
  | .param _ => 22
  | .bound _ _ => 23
  | .placeholder _ => 24
  | .infer _ => 25
  | .error => 26

/-- Is this a `ty::Infer` type? -/
def Ty.isInfer : Ty → Bool
  | .infer _ => true
  | _ => false

/-- Is this a `ty::Bound` type? -/
def Ty.isBound : Ty → Bool
  | .bound _ _ => true
  | _ => false

/-- Is this a `ty::Error` type? -/
def Ty.isError : Ty → Bool
  | .error => true
  | _ => false

/-- Is this a `ConstKind::Infer`? -/
def ConstKind.isInfer : ConstKind → Bool
  | .infer _ => true
  | _ => false

/-- Is this a `ConstKind::Error`? -/
def ConstKind.isError : ConstKind → Bool
  | .error => true
  | _ => false

/-- Two relation objects — one for each of the two parallel relation
interfaces — implement the same underlying relation: every method of the
unit-returning object succeeds exactly when the corresponding method of
the value-returning object does, fails with the same `TypeError`, panics
together with it, and the two agree on which side is the expected one. -/
structure RelCorr (R : TypeRelation) (R2 : TypeRelation2) : Prop where
  aIsExpected : R.aIsExpected = R2.aIsExpected
  tys : ∀ a b, (R.tys a b).toU = R2.tys a b
  regions : ∀ a b, (R.regions a b).toU = R2.regions a b
  consts : ∀ a b, (R.consts a b).toU = R2.consts a b
  relateItemArgs : ∀ d a b, (R.relateItemArgs d a b).toU = R2.relateItemArgs d a b
  relateWithVarianceTy : ∀ v i a b,
    (R.relateWithVarianceTy v i a b).toU = R2.relateWithVarianceTy v i a b
  relateWithVarianceArg : ∀ v i a b,
    (R.relateWithVarianceArg v i a b).toU = R2.relateWithVarianceArg v i a b
  relateWithVarianceArgs : ∀ v i a b,
    (R.relateWithVarianceArgs v i a b).toU = R2.relateWithVarianceArgs v i a b
  bindersFnSig : ∀ a b, (R.bindersFnSig a b).toU = R2.bindersFnSig a b
  bindersGeneratorWitness : ∀ a b,
    (R.bindersGeneratorWitness a b).toU = R2.bindersGeneratorWitness a b
  bindersExistentialTraitRef : ∀ a b,
    (R.bindersExistentialTraitRef a b).toU = R2.bindersExistentialTraitRef a b
  bindersExistentialProjection : ∀ a b,
    (R.bindersExistentialProjection a b).toU = R2.bindersExistentialProjection a b

/-! ## Concrete instances for witnesses and counterexamples -/

/-- A concrete context oracle: no variances, no const-expr expansion, and
target-usize evaluation that reads off concrete `Value` consts. -/
def tcxTriv : TyCtxt :=
  TyCtxt.mk (fun _ => []) (fun _ _ => .never)
    (fun c => match c.kind with | .value n => some n | _ => none)
    false id (fun _ _ => .eq)

/-- A concrete relation under which every nested comparison succeeds with
the left value. -/
def relTriv : TypeRelation :=
  TypeRelation.mk true (fun a _ => .ok a) (fun a _ => .ok a) (fun a _ => .ok a)
    (fun _ a _ => .ok a) (fun _ _ a _ => .ok a) (fun _ _ a _ => .ok a) (fun _ _ a _ => .ok a)
    (fun a _ => .ok a) (fun a _ => .ok a) (fun a _ => .ok a) (fun a _ => .ok a)

/-- The unit-returning counterpart of `relTriv`. -/
def relTriv2 : TypeRelation2 :=
  TypeRelation2.mk true (fun _ _ => .ok ()) (fun _ _ => .ok ()) (fun _ _ => .ok ())
    (fun _ _ _ => .ok ()) (fun _ _ _ _ => .ok ()) (fun _ _ _ _ => .ok ())
    (fun _ _ _ _ => .ok ()) (fun _ _ => .ok ()) (fun _ _ => .ok ()) (fun _ _ => .ok ())
    (fun _ _ => .ok ())

/-- A concrete relation whose `consts` method always fails (used to drive
the array-length fallback) while everything else succeeds. -/
def relConstsFail : TypeRelation :=
  TypeRelation.mk true (fun a _ => .ok a) (fun a _ => .ok a)
    (fun a b => .err (.constMismatch (expectedFound true a b)))
    (fun _ a _ => .ok a) (fun _ _ a _ => .ok a) (fun _ _ a _ => .ok a) (fun _ _ a _ => .ok a)
    (fun a _ => .ok a) (fun a _ => .ok a) (fun a _ => .ok a) (fun a _ => .ok a)

/-- The `u8` type. -/
def tyU8 : Ty := .uint 0

/-- The target `usize` type. -/
def tyUsize : Ty := .uint 6

/-- A concrete array-length const. -/
def constLen (n : Nat) : Const := Const.mk (.value n) tyUsize

/-- The array type with `u8` elements and a concrete length. -/
def arrU8 (n : Nat) : Ty := .array tyU8 (constLen n)

/-- The signature of a one-argument function from `i32` to `bool`. -/
def sigOneArg : FnSig := FnSig.mk [.int 1, .bool] false false 0

/-- The signature of a two-argument function from `i32, i32` to `bool`. -/
def sigTwoArgs : FnSig := FnSig.mk [.int 1, .int 1, .bool] false false 0

/-- An unevaluated const of definition `7` with no arguments, at a given
type. -/
def cUneval (t : Ty) : Const := Const.mk (.unevaluated (.mk 7 [])) t

/-- The scenario-4 clause: a GAT self type whose two trailing arguments
contain only one innermost bound variable. -/
def gatClauseScenario4 : ParentClause :=
  ParentClause.mk true (ClauseSelfTy.proj 5 [GatArg.reBound 0 0, GatArg.reOther] .leaf)
    .leaf []

/-- A layout oracle making every layout-successful type zero-sized. -/
def layoutAllZst : LayoutOracle := fun _ => some (Layout.mk true)

/-- A concrete generator body. -/
def genBody : Body :=
  Body.mk true [.tuple []]
    [VarDebugInfoContents.place (Place.mk 0)]
    [BasicBlockData.mk [Statement.assign (Place.mk 0) (Rvalue.use (.copy (Place.mk 0)))]
      (Terminator.ret)]

/-- A concrete `Replacer` over one zero-sized local. -/
def replacerZst : Replacer := Replacer.mk layoutAllZst [.tuple []]

/-! ## Helper lemmas -/

@[simp] theorem Outcome.ok_bind (a : α) (f : α → Outcome β) :
    (Outcome.ok a >>= f) = f a := rfl

@[simp] theorem Outcome.err_bind (e : TypeError) (f : α → Outcome β) :
    ((Outcome.err e : Outcome α) >>= f) = .err e := rfl

@[simp] theorem Outcome.bug_bind (f : α → Outcome β) :
    ((Outcome.bug : Outcome α) >>= f) = .bug := rfl

@[simp] theorem Outcome.pure_eq_ok (a : α) : (pure a : Outcome α) = .ok a := rfl

/-- Reduction of `structurally_relate_tys` at a pair of array types. -/
theorem srt_array_arm (tcx : TyCtxt) (R : TypeRelation) (elemA elemB : Ty) (szA szB : Const) :
    structurally_relate_tys tcx R (.array elemA szA) (.array elemB szB) = (do
      let t ← R.tys elemA elemB
      match R.consts szA szB with
      | .ok sz => .ok (.array t sz)
      | .err e =>
        match tcx.tryEvalTargetUsize szA, tcx.tryEvalTargetUsize szB with
        | some vA, some vB =>
          if vA != vB then .err (.fixedArraySize (expectedFound R.aIsExpected vA vB))
          else .err e
        | _, _ => .err e
      | .bug => .bug) := rfl

/-- Reduction of `structurally_relate_tys2` at a pair of array types. -/
theorem srt2_array_arm (tcx : TyCtxt) (R : TypeRelation2) (elemA elemB : Ty) (szA szB : Const) :
    structurally_relate_tys2 tcx R (.array elemA szA) (.array elemB szB) = (do
      let _ ← R.tys elemA elemB
      match R.consts szA szB with
      | .ok () => .ok ()
      | .err e =>
        match tcx.tryEvalTargetUsize szA, tcx.tryEvalTargetUsize szB with
        | some vA, some vB =>
          if vA != vB then .err (.fixedArraySize (expectedFound R.aIsExpected vA vB))
          else .err e
        | _, _ => .err e
      | .bug => .bug) := rfl

/-! ## Claim theorems -/

/-- Claim C2: relating two function signatures that agree on
c-variadicness, unsafety and ABI but have differing input counts yields
the `ArgCount` error.  The relation object `R` is universally quantified
and the conclusion does not depend on it, so the error is produced before
any parameter-position or output relation is attempted. -/
theorem C2_fnsig_arg_count (R : TypeRelation) (a b : FnSig)
    (hcv : a.cVariadic = b.cVariadic) (hu : a.unsafety = b.unsafety)
    (habi : a.abi = b.abi) (hlen : a.inputs.length ≠ b.inputs.length) :
    FnSig.relate R a b = .err .argCount := by
  unfold FnSig.relate relateUnsafety relateAbi
  rw [hcv, hu, habi]
  simp [bne_iff_ne, hlen]

/-- Claim C2, witness: relating the signature of a one-argument function
with that of a two-argument function yields `ArgCount`. -/
theorem C2_fnsig_arg_count_witness :
    sigOneArg.cVariadic = sigTwoArgs.cVariadic ∧
    sigOneArg.unsafety = sigTwoArgs.unsafety ∧
    sigOneArg.abi = sigTwoArgs.abi ∧
    sigOneArg.inputs.length ≠ sigTwoArgs.inputs.length ∧
    FnSig.relate relTriv sigOneArg sigTwoArgs = .err .argCount :=
  ⟨rfl, rfl, rfl, by decide,
    C2_fnsig_arg_count relTriv sigOneArg sigTwoArgs rfl rfl rfl (by decide)⟩

/-- Claim C3: when two array types have elements that relate successfully
but length consts that fail to relate, and both lengths evaluate to
concrete, unequal target-usize values, the result is the `FixedArraySize`
error carrying the two concrete lengths — not the underlying const
error. -/
theorem C3_array_fixed_size (tcx : TyCtxt) (R : TypeRelation)
    (elemA elemB : Ty) (szA szB : Const) (t : Ty) (e : TypeError) (vA vB : Nat)
    (ht : R.tys elemA elemB = .ok t)
    (hc : R.consts szA szB = .err e)
    (hevA : tcx.tryEvalTargetUsize szA = some vA)
    (hevB : tcx.tryEvalTargetUsize szB = some vB)
    (hne : vA ≠ vB) :
    structurally_relate_tys tcx R (.array elemA szA) (.array elemB szB) =
      .err (.fixedArraySize (expectedFound R.aIsExpected vA vB)) := by
  rw [srt_array_arm, ht]
  simp only [Outcome.ok_bind]
  rw [hc]
  simp only []
  rw [hevA, hevB]
  simp [bne_iff_ne, hne]

/-- Claim C3, witness: relating the arrays with `u8` elements of concrete
lengths 4 and 8 yields `FixedArraySize` with expected 4 and found 8,
rather than the const-mismatch error the length relation produced. -/
theorem C3_array_fixed_size_witness :
    relConstsFail.tys tyU8 tyU8 = .ok tyU8 ∧
    relConstsFail.consts (constLen 4) (constLen 8) =
      .err (.constMismatch (expectedFound true (constLen 4) (constLen 8))) ∧
    tcxTriv.tryEvalTargetUsize (constLen 4) = some 4 ∧
    tcxTriv.tryEvalTargetUsize (constLen 8) = some 8 ∧
    structurally_relate_tys tcxTriv relConstsFail (arrU8 4) (arrU8 8) =
      .err (.fixedArraySize (ExpectedFound.mk 4 8)) :=
  ⟨rfl, rfl, rfl, rfl,
    C3_array_fixed_size tcxTriv relConstsFail tyU8 tyU8 (constLen 4) (constLen 8)
      tyU8 (.constMismatch (expectedFound true (constLen 4) (constLen 8))) 4 8
      rfl rfl rfl rfl (by decide)⟩

/-- Claim C5, amended: starting a depth-limited query whose current query
depth is no longer within the recursion limit always produces the fatal
`QueryOverflow` diagnostic (never a silently completed computation), whose
suggested new limit is double the previous limit — except that a previous
limit of 0 suggests 2. -/
theorem C5_depth_limit_overflow (α : Type) (compute : Nat → α)
    (recursionLimit currentDepth : Nat) (h : ¬ currentDepth ≤ recursionLimit) :
    startQuery true recursionLimit currentDepth compute =
      .overflow (suggestedLimitAfterOverflow recursionLimit) ∧
    suggestedLimitAfterOverflow recursionLimit =
      (if recursionLimit = 0 then 2 else 2 * recursionLimit) := by
  constructor
  · unfold startQuery valueWithinLimit
    simp [h]
  · unfold suggestedLimitAfterOverflow
    cases recursionLimit with
    | zero => rfl
    | succ n => simp [Nat.mul_comm]

/-- Claim C5, counterexample to the claim as stated: with a configured
recursion limit of 0 and query depth 1, the overflow diagnostic suggests
limit 2, which is not double the previous limit (0). -/
theorem C5_counterexample :
    startQuery true 0 1 (fun _ => ()) = .overflow 2 ∧ (2 : Nat) ≠ 2 * 0 :=
  ⟨rfl, by decide⟩

/-- Claim C5, witness for the amended theorem at recursion limit 3 and
query depth 4. -/
theorem C5_depth_limit_overflow_witness :
    ¬ (4 : Nat) ≤ 3 ∧
    (startQuery true 3 4 (fun d => d) = .overflow (suggestedLimitAfterOverflow 3) ∧
      suggestedLimitAfterOverflow 3 = (if (3 : Nat) = 0 then 2 else 2 * 3)) :=
  ⟨by decide, C5_depth_limit_overflow Nat (fun d => d) 3 4 (by decide)⟩

/-- Reduction of `structurally_relate_tys` when the left type is an alias
head (whose inner structure the matcher needs) and the right type has a
different top-level constructor and is not an inference, bound or error
type: the catch-all `Sorts` arm applies. -/
theorem srt_alias_left_sorts (tcx : TyCtxt) (R : TypeRelation) (k : AliasKind)
    (d : AliasTy) (b : Ty) (hb : tyTag b ≠ tyTag (Ty.alias k d))
    (hbi : b.isInfer = false) (hbb : b.isBound = false) (hbe : b.isError = false) :
    structurally_relate_tys tcx R (.alias k d) b =
      .err (.sorts (expectedFound R.aIsExpected (.alias k d) b)) := by
  cases k <;> cases d <;> cases b <;> first
    | exact absurd rfl hb
    | rfl
    | (simp_all [Ty.isInfer, Ty.isBound, Ty.isError]; done)

/-- Claim C1, amended: for every pair of types whose top-level constructors
differ, where neither side is an inference variable, a bound variable or an
error type, `structurally_relate_tys` returns the `Sorts` mismatch error
(in particular it does not panic: the result is an `err`, not a `bug`).
Error types relate successfully instead, and inference/bound types are
`bug!` panics by the function's documented caller contract. -/
theorem C1_sorts_on_head_mismatch (tcx : TyCtxt) (R : TypeRelation) (a b : Ty)
    (htag : tyTag a ≠ tyTag b)
    (hai : a.isInfer = false) (hab : a.isBound = false) (hae : a.isError = false)
    (hbi : b.isInfer = false) (hbb : b.isBound = false) (hbe : b.isError = false) :
    structurally_relate_tys tcx R a b = .err (.sorts (expectedFound R.aIsExpected a b)) := by
  cases a <;> cases b <;> first
    | exact absurd rfl htag
    | rfl
    | (simp_all [Ty.isInfer, Ty.isBound, Ty.isError]; done)
    | exact srt_alias_left_sorts tcx R _ _ _ (Ne.symm htag) hbi hbb hbe

/-- Claim C1, counterexample to the claim as stated: the error type and
`bool` have different top-level constructors, yet `structurally_relate_tys`
returns `Ok` (the error type) rather than a `Sorts` mismatch. -/
theorem C1_counterexample :
    tyTag Ty.error ≠ tyTag Ty.bool ∧
    structurally_relate_tys tcxTriv relTriv Ty.error Ty.bool = .ok Ty.error :=
  ⟨by decide, rfl⟩

/-- Claim C1, witness for the amended theorem: relating `bool` with `char`
yields the `Sorts` mismatch. -/
theorem C1_sorts_on_head_mismatch_witness :
    tyTag Ty.bool ≠ tyTag Ty.char ∧
    structurally_relate_tys tcxTriv relTriv Ty.bool Ty.char =
      .err (.sorts (expectedFound relTriv.aIsExpected Ty.bool Ty.char)) :=
  ⟨by decide,
    C1_sorts_on_head_mismatch tcxTriv relTriv .bool .char (by decide)
      rfl rfl rfl rfl rfl rfl⟩

/-- Reduction of `structurally_relate_tys` when the left type is an alias
head and the right is the error type: the error arm applies. -/
theorem srt_alias_left_error (tcx : TyCtxt) (R : TypeRelation) (k : AliasKind)
    (d : AliasTy) :
    structurally_relate_tys tcx R (.alias k d) .error = .ok .error := by
  cases k <;> cases d <;> rfl

/-- Claim C10, amended: relating an error value never fails — provided the
other side is not one of the kinds whose `bug!` arms come first in the
match.  For types: if either side is `ty::Error` and neither side is an
inference or bound type, `structurally_relate_tys` returns `Ok`.  For
consts (with abstract-const expansion not rewriting the operands, e.g. the
`generic_const_exprs` feature off): if one side's kind is
`ConstKind::Error` and the other side is not an inference const, the
corresponding error side is returned as `Ok`. -/
theorem C10_error_relates_ok (tcx : TyCtxt) (R : TypeRelation) :
    (∀ a b : Ty, (a.isError = true ∨ b.isError = true) →
      a.isInfer = false → a.isBound = false → b.isInfer = false → b.isBound = false →
      structurally_relate_tys tcx R a b = .ok .error) ∧
    (∀ a b : Const, tcx.genericConstExprs = false →
      a.kind.isError = true → b.kind.isInfer = false →
      structurally_relate_consts tcx R a b = .ok a) ∧
    (∀ a b : Const, tcx.genericConstExprs = false →
      b.kind.isError = true → a.kind.isInfer = false → a.kind.isError = false →
      structurally_relate_consts tcx R a b = .ok b) := by
  refine ⟨?_, ?_, ?_⟩
  · intro a b he hai hab hbi hbb
    cases a <;> cases b <;> first
      | rfl
      | (simp_all [Ty.isInfer, Ty.isBound, Ty.isError]; done)
      | exact srt_alias_left_error tcx R _ _
  · intro a b hgce hae hbi
    obtain ⟨ka, ta⟩ := a
    obtain ⟨kb, tb⟩ := b
    unfold structurally_relate_consts
    rw [hgce]
    simp only [Bool.false_eq_true, if_false]
    cases ka <;> cases kb <;> first
      | rfl
      | (simp_all [ConstKind.isError, ConstKind.isInfer, Const.kind]; done)
  · intro a b hgce hbe hai hae
    obtain ⟨ka, ta⟩ := a
    obtain ⟨kb, tb⟩ := b
    unfold structurally_relate_consts
    rw [hgce]
    simp only [Bool.false_eq_true, if_false]
    cases ka <;> cases kb <;> first
      | rfl
      | (simp_all [ConstKind.isError, ConstKind.isInfer, Const.kind]; done)

/-- Claim C10, counterexample to the claim as stated: relating the error
type against an inference variable hits the `Infer` `bug!` arm, which
precedes the error arm, so the result is a panic rather than `Ok`; the
same happens for an error const against an inference const. -/
theorem C10_counterexample :
    structurally_relate_tys tcxTriv relTriv Ty.error (Ty.infer 0) = .bug ∧
    structurally_relate_consts tcxTriv relTriv (Const.mk .error Ty.bool)
      (Const.mk (.infer 0) Ty.bool) = .bug :=
  ⟨rfl, rfl⟩

/-- Claim C10, witness for the amended theorem: error-vs-`bool` relates to
`Ok` on the type side, and an error const against a value const returns
the error const. -/
theorem C10_error_relates_ok_witness :
    structurally_relate_tys tcxTriv relTriv Ty.error Ty.bool = .ok Ty.error ∧
    structurally_relate_consts tcxTriv relTriv (Const.mk .error Ty.bool)
      (Const.mk (.value 3) Ty.bool) = .ok (Const.mk .error Ty.bool) :=
  ⟨(C10_error_relates_ok tcxTriv relTriv).1 Ty.error Ty.bool (Or.inl rfl) rfl rfl rfl rfl,
    (C10_error_relates_ok tcxTriv relTriv).2.1 (Const.mk .error Ty.bool)
      (Const.mk (.value 3) Ty.bool) rfl rfl rfl⟩

/-- Claim C7, amended: for unevaluated consts with the same definition and
equal types, with abstract-const expansion not rewriting the operands,
`structurally_relate_consts` relates the two generic-argument lists with
`Invariant` variance and, on success, returns an unevaluated const with
the same definition at the left type.  The context oracle — including its
const evaluator — is universally quantified and absent from the result,
so neither const is evaluated. -/
theorem C7_unevaluated_consts_invariant_args (tcx : TyCtxt) (R : TypeRelation)
    (a b : Const) (auDef : Nat) (auArgs buArgs : List GenericArg)
    (hgce : tcx.genericConstExprs = false)
    (hka : a.kind = .unevaluated (.mk auDef auArgs))
    (hkb : b.kind = .unevaluated (.mk auDef buArgs))
    (hty : tyBeq a.ty b.ty = true) :
    structurally_relate_consts tcx R a b =
      (R.relateWithVarianceArgs .invariant .defaultInfo auArgs buArgs >>= fun args =>
        .ok (Const.mk (.unevaluated (.mk auDef args)) a.ty)) := by
  obtain ⟨ka, ta⟩ := a
  obtain ⟨kb, tb⟩ := b
  simp only [Const.kind] at hka hkb
  subst hka
  subst hkb
  simp only [Const.ty] at hty ⊢
  unfold structurally_relate_consts
  rw [hgce]
  simp [Const.kind, Const.ty, hty]

/-- Claim C7, counterexample to the claim as stated: two unevaluated
consts with the same definition but different types (`u8` and `u16`) hit
the `assert_eq!(a.ty(), b.ty())` in the unevaluated arm, so the relation
panics instead of relating the argument lists; the claimed result (an
`Ok` unevaluated const) differs from the actual `bug` outcome. -/
theorem C7_counterexample :
    structurally_relate_consts tcxTriv relTriv (cUneval (.uint 0)) (cUneval (.uint 1)) =
      .bug ∧
    (relTriv.relateWithVarianceArgs .invariant .defaultInfo [] [] >>= fun args =>
      (.ok (Const.mk (.unevaluated (.mk 7 args)) (.uint 0)) : Outcome Const)) =
      .ok (Const.mk (.unevaluated (.mk 7 [])) (.uint 0)) ∧
    (Outcome.bug : Outcome Const) ≠ .ok (Const.mk (.unevaluated (.mk 7 [])) (.uint 0)) :=
  ⟨by
    unfold structurally_relate_consts
    simp [tcxTriv, cUneval, Const.kind, Const.ty, tyBeq],
    rfl, fun h => nomatch h⟩

/-- Claim C7, witness for the amended theorem: two unevaluated consts of
definition 7 at type `u8` relate by relating their (empty) argument lists
invariantly. -/
theorem C7_unevaluated_consts_invariant_args_witness :
    tcxTriv.genericConstExprs = false ∧
    tyBeq (cUneval (.uint 0)).ty (cUneval (.uint 0)).ty = true ∧
    structurally_relate_consts tcxTriv relTriv (cUneval (.uint 0)) (cUneval (.uint 0)) =
      (relTriv.relateWithVarianceArgs .invariant .defaultInfo [] [] >>= fun args =>
        .ok (Const.mk (.unevaluated (.mk 7 args)) (cUneval (.uint 0)).ty)) :=
  ⟨rfl, by simp [cUneval, Const.ty, tyBeq],
    C7_unevaluated_consts_invariant_args tcxTriv relTriv (cUneval (.uint 0))
      (cUneval (.uint 0)) 7 [] [] rfl rfl rfl (by simp [cUneval, Const.ty, tyBeq])⟩

/-! ## Generic lemmas about `toU` and outcome sequencing, used to compare
the value-returning relation runs with the unit-returning ones. -/

@[simp] theorem Outcome.toU_ok (a : α) : (Outcome.ok a).toU = .ok () := rfl

@[simp] theorem Outcome.toU_err (e : TypeError) : (Outcome.err e : Outcome α).toU = .err e := rfl

@[simp] theorem Outcome.toU_bug : (Outcome.bug : Outcome α).toU = .bug := rfl

theorem toU_bind_pure (x : Outcome α) (g : α → β) :
    (x >>= fun v => pure (g v)).toU = x.toU >>= fun _ => pure () := by
  cases x <;> rfl

theorem toU_bind_cons (x : Outcome α) (y : Outcome (List α)) :
    (x >>= fun r => y >>= fun rs => pure (r :: rs)).toU = x.toU >>= fun _ => y.toU := by
  cases x <;> cases y <;> rfl

theorem toU_bind_bind_pure (x : Outcome α) (y : Outcome β) (g : α → β → γ) :
    (x >>= fun a => y >>= fun b => pure (g a b)).toU =
      x.toU >>= fun _ => (y.toU >>= fun _ => pure ()) := by
  cases x <;> cases y <;> rfl

theorem toU_step_cons (x : Outcome α) (g : α → β) (y : Outcome (List β)) :
    ((x >>= fun r => pure (g r)) >>= fun s => y >>= fun rs => pure (s :: rs)).toU =
      x.toU >>= fun _ => y.toU := by
  cases x <;> cases y <;> rfl

theorem toU_ite_ok_step_cons (c : Bool) (v : α) (e : TypeError) (y : Outcome (List α)) :
    ((if c then Outcome.ok v else .err e) >>= fun s => y >>= fun rs => pure (s :: rs)).toU =
      ((if c then Outcome.ok () else .err e) >>= fun _ => y.toU) := by
  split
  · cases y <;> rfl
  · rfl

/-! ## Correspondence of the composite `Relate`/`Relate2` impls -/

/-- The element-wise relators agree when the element relation does. -/
theorem relateZipped_toU (f : α × α → Outcome β) (f2 : α × α → Outcome Unit)
    (hf : ∀ p, (f p).toU = f2 p) (l : List (α × α)) :
    (relateZipped f l).toU = relateZipped2 f2 l := by
  induction l with
  | nil => rfl
  | cons p rest ih =>
    simp only [relateZipped, relateZipped2, ← hf, ← ih]
    exact toU_bind_cons _ _

/-- The `GenericArgsRef` relate impls agree. -/
theorem relateGenericArgs_toU {R : TypeRelation} {R2 : TypeRelation2} (h : RelCorr R R2)
    (a b : List GenericArg) :
    (relateGenericArgs R a b).toU = relateGenericArgs2 R2 a b :=
  relateZipped_toU _ _ (fun p => h.relateWithVarianceArg _ _ p.1 p.2) _

/-- The `relate_type_and_mut` variants agree. -/
theorem relate_type_and_mut_toU {R : TypeRelation} {R2 : TypeRelation2} (h : RelCorr R R2)
    (a b : TypeAndMut) (base : Ty) :
    (relate_type_and_mut R a b base).toU = relate_type_and_mut2 R2 a b base := by
  obtain ⟨t1, m1⟩ := a
  obtain ⟨t2, m2⟩ := b
  simp only [relate_type_and_mut, relate_type_and_mut2]
  split
  · rfl
  · simp only [← h.relateWithVarianceTy]
    exact toU_bind_pure _ _

/-- The `relate_args_with_variances` loops agree. -/
theorem relateArgsWithVariancesGo_toU {R : TypeRelation} {R2 : TypeRelation2}
    (h : RelCorr R R2) (tcx : TyCtxt) (d : Nat) (variances : List Variance)
    (aArg : List GenericArg) (fetch : Bool) (l : List (GenericArg × GenericArg)) (i : Nat) :
    (relateArgsWithVariancesGo tcx R d variances aArg fetch i l).toU =
      relateArgsWithVariancesGo2 tcx R2 d variances aArg fetch i l := by
  induction l generalizing i with
  | nil => rfl
  | cons p rest ih =>
    obtain ⟨x, y⟩ := p
    simp only [relateArgsWithVariancesGo, relateArgsWithVariancesGo2]
    cases variances.get? i with
    | none => rfl
    | some v =>
      simp only [← h.relateWithVarianceArg, ← ih]
      exact toU_bind_cons _ _

/-- The `relate_args_with_variances` variants agree. -/
theorem relate_args_with_variances_toU {R : TypeRelation} {R2 : TypeRelation2}
    (h : RelCorr R R2) (tcx : TyCtxt) (d : Nat) (variances : List Variance)
    (aArg bArg : List GenericArg) (fetch : Bool) :
    (relate_args_with_variances tcx R d variances aArg bArg fetch).toU =
      relate_args_with_variances2 tcx R2 d variances aArg bArg fetch :=
  relateArgsWithVariancesGo_toU h tcx d variances aArg fetch _ 0

/-- The `AliasTy` relate impls agree. -/
theorem AliasTy_relate_toU {R : TypeRelation} {R2 : TypeRelation2} (h : RelCorr R R2)
    (a b : AliasTy) :
    (AliasTy.relate R a b).toU = AliasTy.relate2 R2 a b := by
  simp only [AliasTy.relate, AliasTy.relate2]
  split
  · rw [h.aIsExpected]; rfl
  · simp only [← relateGenericArgs_toU h]
    exact toU_bind_pure _ _

/-- The existential-predicate zip loops agree. -/
theorem relateEPsZipped_toU {R : TypeRelation} {R2 : TypeRelation2} (h : RelCorr R R2)
    (a b : List (Binder ExistentialPredicate))
    (l : List (Binder ExistentialPredicate × Binder ExistentialPredicate)) :
    (relateEPsZipped R a b l).toU = relateEPsZipped2 R2 a b l := by
  induction l with
  | nil => rfl
  | cons p rest ih =>
    obtain ⟨epA, epB⟩ := p
    obtain ⟨vA, valA⟩ := epA
    obtain ⟨vB, valB⟩ := epB
    simp only [relateEPsZipped, relateEPsZipped2, Binder.skipBinder, ← ih]
    cases valA <;> cases valB <;>
      first
        | (simp only [← h.bindersExistentialTraitRef]; exact toU_step_cons _ _ _)
        | (simp only [← h.bindersExistentialProjection]; exact toU_step_cons _ _ _)
        | (rw [h.aIsExpected]; exact toU_ite_ok_step_cons _ _ _ _)
        | (rw [h.aIsExpected]; rfl)

/-- The existential-predicate list relate impls agree. -/
theorem relateExistentialPredicates_toU {R : TypeRelation} {R2 : TypeRelation2}
    (h : RelCorr R R2) (tcx : TyCtxt) (a b : List (Binder ExistentialPredicate)) :
    (relateExistentialPredicates tcx R a b).toU = relateExistentialPredicates2 tcx R2 a b := by
  simp only [relateExistentialPredicates, relateExistentialPredicates2]
  split
  · rw [h.aIsExpected]; rfl
  · exact relateEPsZipped_toU h a b _

/-- The const-pair loops of the `FunctionCall` arm agree. -/
theorem relateConstPairs_toU {R : TypeRelation} {R2 : TypeRelation2} (h : RelCorr R R2)
    (l : List (Const × Const)) :
    (relateConstPairs R.consts l).toU = relateConstPairs2 R2.consts l := by
  induction l with
  | nil => rfl
  | cons p rest ih =>
    simp only [relateConstPairs, relateConstPairs2, ← h.consts, ← ih]
    exact toU_bind_cons _ _

theorem toU_bind_pure_id (x : Outcome α) (g : α → β) :
    (x >>= fun v => pure (g v)).toU = x.toU := by
  cases x <;> rfl

theorem toU_seq_congr (x : Outcome α) (k : α → Outcome β) (k2 : Unit → Outcome Unit)
    (hk : ∀ a, (k a).toU = k2 ()) : (x >>= k).toU = x.toU >>= k2 := by
  cases x with
  | ok a => exact hk a
  | err e => rfl
  | bug => rfl

/-! ## Per-arm correspondence helpers for `structurally_relate_tys` -/

theorem arm_sorts {R : TypeRelation} {R2 : TypeRelation2} (h : RelCorr R R2) (ea eb : Ty) :
    (Outcome.err (.sorts (expectedFound R.aIsExpected ea eb)) : Outcome Ty).toU =
      (.err (.sorts (expectedFound R2.aIsExpected ea eb)) : Outcome Unit) := by
  rw [h.aIsExpected]; rfl

theorem arm_prim {R : TypeRelation} {R2 : TypeRelation2} (h : RelCorr R R2)
    (c : Bool) (v : Ty) (ea eb : Ty) :
    ((if c then Outcome.ok v
      else .err (.sorts (expectedFound R.aIsExpected ea eb))) : Outcome Ty).toU =
      (if c then Outcome.ok ()
      else .err (.sorts (expectedFound R2.aIsExpected ea eb))) := by
  rw [h.aIsExpected]; split <;> rfl

theorem arm_item_args {R : TypeRelation} {R2 : TypeRelation2} (h : RelCorr R R2)
    (c : Bool) (d : Nat) (as bs : List GenericArg) (g : List GenericArg → Ty) (ea eb : Ty) :
    ((if c then R.relateItemArgs d as bs >>= fun args => pure (g args)
      else .err (.sorts (expectedFound R.aIsExpected ea eb))) : Outcome Ty).toU =
      (if c then R2.relateItemArgs d as bs >>= fun _ => pure ()
      else .err (.sorts (expectedFound R2.aIsExpected ea eb))) := by
  split
  · rw [← h.relateItemArgs]; exact toU_bind_pure _ _
  · exact arm_sorts h ea eb

theorem arm_gargs {R : TypeRelation} {R2 : TypeRelation2} (h : RelCorr R R2)
    (c : Bool) (as bs : List GenericArg) (g : List GenericArg → Ty) (ea eb : Ty) :
    ((if c then relateGenericArgs R as bs >>= fun args => pure (g args)
      else .err (.sorts (expectedFound R.aIsExpected ea eb))) : Outcome Ty).toU =
      (if c then relateGenericArgs2 R2 as bs >>= fun _ => pure ()
      else .err (.sorts (expectedFound R2.aIsExpected ea eb))) := by
  split
  · rw [← relateGenericArgs_toU h]; exact toU_bind_pure _ _
  · exact arm_sorts h ea eb

theorem arm_dynamic {R : TypeRelation} {R2 : TypeRelation2} (h : RelCorr R R2) (tcx : TyCtxt)
    (c : Bool) (r1 r2 : Nat) (o1 o2 : List (Binder ExistentialPredicate))
    (g : List (Binder ExistentialPredicate) → Nat → Ty) (ea eb : Ty) :
    ((if c then R.regions r1 r2 >>= fun rb =>
        relateExistentialPredicates tcx R o1 o2 >>= fun obj => pure (g obj rb)
      else .err (.sorts (expectedFound R.aIsExpected ea eb))) : Outcome Ty).toU =
      (if c then R2.regions r1 r2 >>= fun _ =>
        (relateExistentialPredicates2 tcx R2 o1 o2 >>= fun _ => pure ())
      else .err (.sorts (expectedFound R2.aIsExpected ea eb))) := by
  split
  · rw [← h.regions, ← relateExistentialPredicates_toU h]
    exact toU_bind_bind_pure _ _ _
  · exact arm_sorts h ea eb

theorem arm_gw {R : TypeRelation} {R2 : TypeRelation2} (h : RelCorr R R2)
    (x y : Binder GeneratorWitness) (g : Binder GeneratorWitness → Ty) :
    (R.bindersGeneratorWitness x y >>= fun t => pure (g t)).toU =
      R2.bindersGeneratorWitness x y >>= fun _ => pure () := by
  rw [← h.bindersGeneratorWitness]; exact toU_bind_pure _ _

theorem arm_fnPtr {R : TypeRelation} {R2 : TypeRelation2} (h : RelCorr R R2)
    (x y : Binder FnSig) (g : Binder FnSig → Ty) :
    (R.bindersFnSig x y >>= fun t => pure (g t)).toU =
      R2.bindersFnSig x y >>= fun _ => pure () := by
  rw [← h.bindersFnSig]; exact toU_bind_pure _ _

theorem arm_rawPtr {R : TypeRelation} {R2 : TypeRelation2} (h : RelCorr R R2)
    (m1 m2 : TypeAndMut) (base : Ty) (g : TypeAndMut → Ty) :
    (relate_type_and_mut R m1 m2 base >>= fun mt => pure (g mt)).toU =
      relate_type_and_mut2 R2 m1 m2 base >>= fun _ => pure () := by
  rw [← relate_type_and_mut_toU h]; exact toU_bind_pure _ _

theorem arm_ref {R : TypeRelation} {R2 : TypeRelation2} (h : RelCorr R R2)
    (r1 r2 : Nat) (m1 m2 : TypeAndMut) (base : Ty) (g : Nat → Ty → Mutability → Ty) :
    (R.regions r1 r2 >>= fun r => relate_type_and_mut R m1 m2 base >>= fun mt =>
      (match mt with | .mk ty mutbl => pure (g r ty mutbl))).toU =
      R2.regions r1 r2 >>= fun _ =>
        (relate_type_and_mut2 R2 m1 m2 base >>= fun _ => pure ()) := by
  rw [← h.regions, ← relate_type_and_mut_toU h]
  cases R.regions r1 r2 <;> try rfl
  cases relate_type_and_mut R m1 m2 base <;> try rfl
  rename_i mt
  cases mt
  rfl

theorem arm_array_aux3 {R2 : TypeRelation2} (vA vB : Nat) (e : TypeError) :
    ((if vA != vB then
        Outcome.err (.fixedArraySize (expectedFound R2.aIsExpected vA vB))
      else Outcome.err e : Outcome Ty)).toU =
      ((if vA != vB then
        Outcome.err (.fixedArraySize (expectedFound R2.aIsExpected vA vB))
      else Outcome.err e : Outcome Unit)) := by
  split <;> rfl

theorem arm_array_aux2 {R2 : TypeRelation2} (tcx : TyCtxt) (e : TypeError) (s1 s2 : Const) :
    ((match tcx.tryEvalTargetUsize s1, tcx.tryEvalTargetUsize s2 with
      | some vA, some vB =>
        if vA != vB then
          Outcome.err (.fixedArraySize (expectedFound R2.aIsExpected vA vB))
        else Outcome.err e
      | _, _ => Outcome.err e) : Outcome Ty).toU =
      ((match tcx.tryEvalTargetUsize s1, tcx.tryEvalTargetUsize s2 with
      | some vA, some vB =>
        if vA != vB then
          Outcome.err (.fixedArraySize (expectedFound R2.aIsExpected vA vB))
        else Outcome.err e
      | _, _ => Outcome.err e) : Outcome Unit) := by
  cases tcx.tryEvalTargetUsize s1 <;> cases tcx.tryEvalTargetUsize s2 <;>
    first
      | rfl
      | exact arm_array_aux3 _ _ _

theorem arm_array_aux {R2 : TypeRelation2} (tcx : TyCtxt) (x : Outcome Ty)
    (y : Outcome Const) (s1 s2 : Const) :
    ((x >>= fun t =>
      (match y with
       | .ok sz => Outcome.ok (.array t sz)
       | .err e =>
         (match tcx.tryEvalTargetUsize s1, tcx.tryEvalTargetUsize s2 with
          | some vA, some vB =>
            if vA != vB then .err (.fixedArraySize (expectedFound R2.aIsExpected vA vB))
            else .err e
          | _, _ => .err e)
       | .bug => .bug)) : Outcome Ty).toU =
      (x.toU >>= fun _ =>
      (match y.toU with
       | .ok _ => Outcome.ok ()
       | .err e =>
         (match tcx.tryEvalTargetUsize s1, tcx.tryEvalTargetUsize s2 with
          | some vA, some vB =>
            if vA != vB then .err (.fixedArraySize (expectedFound R2.aIsExpected vA vB))
            else .err e
          | _, _ => .err e)
       | .bug => .bug)) := by
  cases x <;> cases y <;>
    first
      | rfl
      | exact arm_array_aux2 tcx _ s1 s2

theorem arm_slice {R : TypeRelation} {R2 : TypeRelation2} (h : RelCorr R R2)
    (t1 t2 : Ty) (g : Ty → Ty) :
    (R.tys t1 t2 >>= fun t => pure (g t)).toU = R2.tys t1 t2 >>= fun _ => pure () := by
  rw [← h.tys]; exact toU_bind_pure _ _

theorem arm_tuple {R : TypeRelation} {R2 : TypeRelation2} (h : RelCorr R R2)
    (asT bsT : List Ty) (ea eb : Ty) :
    ((if asT.length == bsT.length then
        relateZipped (fun p => R.tys p.1 p.2) (asT.zip bsT) >>= fun ts => pure (Ty.tuple ts)
      else if !(asT.isEmpty || bsT.isEmpty) then
        .err (.tupleSize (expectedFound R.aIsExpected asT.length bsT.length))
      else .err (.sorts (expectedFound R.aIsExpected ea eb))) : Outcome Ty).toU =
      (if asT.length == bsT.length then
        relateZipped2 (fun p => R2.tys p.1 p.2) (asT.zip bsT)
      else if !(asT.isEmpty || bsT.isEmpty) then
        .err (.tupleSize (expectedFound R2.aIsExpected asT.length bsT.length))
      else .err (.sorts (expectedFound R2.aIsExpected ea eb))) := by
  rw [h.aIsExpected]
  split
  · rw [← relateZipped_toU (fun p => R.tys p.1 p.2) (fun p => R2.tys p.1 p.2)
      (fun p => h.tys p.1 p.2)]
    exact toU_bind_pure_id _ _
  · split <;> rfl

theorem arm_alias_gen {R : TypeRelation} {R2 : TypeRelation2} (h : RelCorr R R2)
    (d1 d2 : AliasTy) (c : Bool) (g : AliasTy → Ty) :
    (AliasTy.relate R d1 d2 >>= fun x => if c then pure (g x) else Outcome.bug).toU =
      AliasTy.relate2 R2 d1 d2 >>= fun _ => (if c then pure () else Outcome.bug) := by
  rw [← AliasTy_relate_toU h]
  cases AliasTy.relate R d1 d2 <;> try rfl
  split <;> rfl

theorem arm_alias_opaq {R : TypeRelation} {R2 : TypeRelation2} (h : RelCorr R R2)
    (tcx : TyCtxt) (c : Bool) (dA : Nat) (vs : List Variance) (as bs : List GenericArg)
    (dd1 dd2 : AliasTy) (g : List GenericArg → Ty) (g2 : AliasTy → Ty) :
    ((if c then relate_args_with_variances tcx R dA vs as bs false >>= fun args =>
        pure (g args)
      else AliasTy.relate R dd1 dd2 >>= fun a2 => pure (g2 a2)) : Outcome Ty).toU =
      (if c then relate_args_with_variances2 tcx R2 dA vs as bs false >>= fun _ => pure ()
      else AliasTy.relate2 R2 dd1 dd2 >>= fun _ => pure ()) := by
  split
  · rw [← relate_args_with_variances_toU h]; exact toU_bind_pure _ _
  · rw [← AliasTy_relate_toU h]; exact toU_bind_pure _ _

/-- The left-alias column of the agreement: when the left type is an alias
head and the right type has a different top-level constructor, both
versions agree (catch-all, error or bug arms). -/
theorem arm_alias_left (tcx : TyCtxt) {R : TypeRelation} {R2 : TypeRelation2}
    (h : RelCorr R R2) (k : AliasKind) (d : AliasTy) (b : Ty)
    (hb : tyTag b ≠ tyTag (Ty.alias k d)) :
    (structurally_relate_tys tcx R (.alias k d) b).toU =
      structurally_relate_tys2 tcx R2 (.alias k d) b := by
  cases k <;> cases d <;> cases b <;> first
    | exact absurd rfl hb
    | rfl
    | exact arm_sorts h _ _

theorem carm_mismatch {R : TypeRelation} {R2 : TypeRelation2} (h : RelCorr R R2)
    (ea eb : Const) :
    (Outcome.err (.constMismatch (expectedFound R.aIsExpected ea eb)) : Outcome Const).toU =
      (.err (.constMismatch (expectedFound R2.aIsExpected ea eb)) : Outcome Unit) := by
  rw [h.aIsExpected]; rfl

theorem carm_if {R : TypeRelation} {R2 : TypeRelation2} (h : RelCorr R R2)
    (c : Bool) (v ea eb : Const) :
    ((if c then Outcome.ok v
      else .err (.constMismatch (expectedFound R.aIsExpected ea eb))) : Outcome Const).toU =
    ((if c then Outcome.ok ()
      else .err (.constMismatch (expectedFound R2.aIsExpected ea eb))) : Outcome Unit) := by
  rw [h.aIsExpected]; cases c <;> rfl

theorem carm_uneval {R : TypeRelation} {R2 : TypeRelation2} (h : RelCorr R R2)
    (c1 c2 : Bool) (x : Outcome (List GenericArg)) (x2 : Outcome Unit) (hx : x.toU = x2)
    (g : List GenericArg → Const) (ea eb : Const) :
    ((if c1 then (if c2 then x >>= fun v => pure (g v) else .bug)
      else .err (.constMismatch (expectedFound R.aIsExpected ea eb))) : Outcome Const).toU =
    ((if c1 then (if c2 then x2 >>= fun _ => pure () else .bug)
      else .err (.constMismatch (expectedFound R2.aIsExpected ea eb))) : Outcome Unit) := by
  rw [h.aIsExpected, ← hx]
  cases c1 <;> cases c2 <;> first | rfl | (cases x <;> rfl)

theorem carm_binop {R : TypeRelation} {R2 : TypeRelation2} (h : RelCorr R R2)
    (c : Bool) (t1a t1b t2a t2b : Ty) (c1a c1b c2a c2b : Const)
    (g : Const → Const → Const) (ea eb : Const) :
    ((if c then (R.tys t1a t1b >>= fun _ => R.tys t2a t2b >>= fun _ =>
        R.consts c1a c1b >>= fun l => R.consts c2a c2b >>= fun r => pure (g l r))
      else .err (.constMismatch (expectedFound R.aIsExpected ea eb))) : Outcome Const).toU =
    ((if c then (R2.tys t1a t1b >>= fun _ => R2.tys t2a t2b >>= fun _ =>
        R2.consts c1a c1b >>= fun _ => R2.consts c2a c2b >>= fun _ => pure ())
      else .err (.constMismatch (expectedFound R2.aIsExpected ea eb))) : Outcome Unit) := by
  rw [h.aIsExpected, ← h.tys t1a t1b, ← h.tys t2a t2b, ← h.consts c1a c1b,
    ← h.consts c2a c2b]
  generalize R.tys t1a t1b = x1
  generalize R.tys t2a t2b = x2
  generalize R.consts c1a c1b = y1
  generalize R.consts c2a c2b = y2
  cases c <;> cases x1 <;> cases x2 <;> cases y1 <;> cases y2 <;> rfl

theorem carm_unop {R : TypeRelation} {R2 : TypeRelation2} (h : RelCorr R R2)
    (c : Bool) (tva tvb : Ty) (ca cb : Const) (g : Const → Const) (ea eb : Const) :
    ((if c then (R.tys tva tvb >>= fun _ => R.consts ca cb >>= fun v => pure (g v))
      else .err (.constMismatch (expectedFound R.aIsExpected ea eb))) : Outcome Const).toU =
    ((if c then (R2.tys tva tvb >>= fun _ => R2.consts ca cb >>= fun _ => pure ())
      else .err (.constMismatch (expectedFound R2.aIsExpected ea eb))) : Outcome Unit) := by
  rw [h.aIsExpected, ← h.tys tva tvb, ← h.consts ca cb]
  generalize R.tys tva tvb = x
  generalize R.consts ca cb = y
  cases c <;> cases x <;> cases y <;> rfl

theorem carm_cast {R : TypeRelation} {R2 : TypeRelation2} (h : RelCorr R R2)
    (c : Bool) (tva tvb t2a t2b : Ty) (ca cb : Const) (g : Const → Ty → Const)
    (ea eb : Const) :
    ((if c then (R.tys tva tvb >>= fun _ => R.consts ca cb >>= fun v =>
        R.tys t2a t2b >>= fun t => pure (g v t))
      else .err (.constMismatch (expectedFound R.aIsExpected ea eb))) : Outcome Const).toU =
    ((if c then (R2.tys tva tvb >>= fun _ => R2.consts ca cb >>= fun _ =>
        R2.tys t2a t2b >>= fun _ => pure ())
      else .err (.constMismatch (expectedFound R2.aIsExpected ea eb))) : Outcome Unit) := by
  rw [h.aIsExpected, ← h.tys tva tvb, ← h.consts ca cb, ← h.tys t2a t2b]
  generalize R.tys tva tvb = x
  generalize R.consts ca cb = y
  generalize R.tys t2a t2b = z
  cases c <;> cases x <;> cases y <;> cases z <;> rfl

theorem carm_fcall {R : TypeRelation} {R2 : TypeRelation2} (h : RelCorr R R2)
    (c : Bool) (tfa tfb : Ty) (fa fb : Const) (l : List (Const × Const))
    (g : Const → List Const → Const) (ea eb : Const) :
    ((if c then (R.tys tfa tfb >>= fun _ => R.consts fa fb >>= fun func =>
        relateConstPairs R.consts l >>= fun ras => pure (g func ras))
      else .err (.constMismatch (expectedFound R.aIsExpected ea eb))) : Outcome Const).toU =
    ((if c then (R2.tys tfa tfb >>= fun _ => R2.consts fa fb >>= fun _ =>
        relateConstPairs2 R2.consts l)
      else .err (.constMismatch (expectedFound R2.aIsExpected ea eb))) : Outcome Unit) := by
  rw [h.aIsExpected, ← h.tys tfa tfb, ← h.consts fa fb, ← relateConstPairs_toU h l]
  generalize R.tys tfa tfb = x
  generalize R.consts fa fb = y
  generalize relateConstPairs R.consts l = z
  cases c <;> cases x <;> cases y <;> cases z <;> rfl

/-- The two parallel structural const relators agree. -/
theorem src_toU_agree (tcx : TyCtxt) {R : TypeRelation} {R2 : TypeRelation2}
    (h : RelCorr R R2) (a0 b0 : Const) :
    (structurally_relate_consts tcx R a0 b0).toU = structurally_relate_consts2 tcx R2 a0 b0 := by
  unfold structurally_relate_consts structurally_relate_consts2
  generalize (if tcx.genericConstExprs then tcx.expandAbstractConsts a0 else a0) = a
  generalize (if tcx.genericConstExprs then tcx.expandAbstractConsts b0 else b0) = b
  obtain ⟨ka, ta⟩ := a
  obtain ⟨kb, tb⟩ := b
  cases ka <;> cases kb <;> first
    | rfl
    | exact carm_mismatch h _ _
    | exact carm_if h _ _ _ _
    | (casesm* UnevaluatedConst
       first
         | rfl
         | exact carm_mismatch h _ _
         | (refine carm_uneval h _ _ _ _ ?_ _ _ _
            exact h.relateWithVarianceArgs _ _ _ _))
    | (rename_i ae be
       cases ae <;> cases be <;> first
         | exact carm_mismatch h _ _
         | exact carm_binop h _ _ _ _ _ _ _ _ _ _ _ _
         | exact carm_unop h _ _ _ _ _ _ _ _
         | exact carm_cast h _ _ _ _ _ _ _ _ _ _
         | exact carm_fcall h _ _ _ _ _ _ _ _ _)

/-- The two parallel structural type relators agree: they succeed together
and fail with the same `TypeError`, whenever the two relation objects
implement the same underlying relation. -/
theorem srt_toU_agree (tcx : TyCtxt) {R : TypeRelation} {R2 : TypeRelation2}
    (h : RelCorr R R2) (a b : Ty) :
    (structurally_relate_tys tcx R a b).toU = structurally_relate_tys2 tcx R2 a b := by
  cases a <;> cases b <;> first
    | rfl
    | exact arm_sorts h _ _
    | exact arm_prim h _ _ _ _
    | exact arm_item_args h _ _ _ _ _ _ _
    | exact arm_gargs h _ _ _ _ _ _
    | exact arm_dynamic h tcx _ _ _ _ _ _ _ _
    | exact arm_gw h _ _ _
    | exact arm_fnPtr h _ _ _
    | exact arm_rawPtr h _ _ _ _
    | exact arm_ref h _ _ _ _ _ _
    | (rename_i eA sA eB sB
       rw [srt_array_arm tcx R eA eB sA sB, srt2_array_arm tcx R2 eA eB sA sB,
         h.aIsExpected, ← h.tys, ← h.consts]
       generalize R.tys eA eB = x
       generalize R.consts sA sB = y
       cases x <;> cases y <;> first
         | rfl
         | exact arm_array_aux2 tcx _ sA sB)
    | exact arm_slice h _ _ _
    | exact arm_tuple h _ _ _ _
    | (refine arm_alias_left tcx h _ _ _ ?_; simp [tyTag]; done)
    | (rename_i k1 d1 k2 d2
       obtain ⟨dd1, as1⟩ := d1
       obtain ⟨dd2, as2⟩ := d2
       cases k1 <;> cases k2 <;>
         first
           | exact arm_alias_opaq h tcx _ _ _ _ _ _ _ _ _
           | exact arm_alias_gen h _ _ _ _)


/-- C9: for every pair of types (respectively consts), the two parallel
implementations agree — `structurally_relate_tys` returns `Ok` exactly when
`structurally_relate_tys2` does (and likewise for the const relators), given
relation objects implementing the same underlying relation, and on failure
both return the same `TypeError`. -/
theorem C9_parallel_relators_agree (tcx : TyCtxt) {R : TypeRelation} {R2 : TypeRelation2}
    (h : RelCorr R R2) :
    (∀ a b : Ty,
      (structurally_relate_tys tcx R a b).toU = structurally_relate_tys2 tcx R2 a b) ∧
    (∀ a b : Const,
      (structurally_relate_consts tcx R a b).toU = structurally_relate_consts2 tcx R2 a b) :=
  ⟨fun a b => srt_toU_agree tcx h a b, fun a b => src_toU_agree tcx h a b⟩

theorem C9_parallel_relators_agree_witness :
    (structurally_relate_tys tcxTriv relTriv (.array tyU8 (constLen 3)) (.array tyU8 (constLen 3))).toU =
      structurally_relate_tys2 tcxTriv relTriv2 (.array tyU8 (constLen 3)) (.array tyU8 (constLen 3)) ∧
    (structurally_relate_consts tcxTriv relTriv (constLen 3) (constLen 4)).toU =
      structurally_relate_consts2 tcxTriv relTriv2 (constLen 3) (constLen 4) :=
  ⟨(C9_parallel_relators_agree tcxTriv
      ⟨rfl, fun _ _ => rfl, fun _ _ => rfl, fun _ _ => rfl, fun _ _ _ => rfl,
       fun _ _ _ _ => rfl, fun _ _ _ _ => rfl, fun _ _ _ _ => rfl,
       fun _ _ => rfl, fun _ _ => rfl, fun _ _ => rfl, fun _ _ => rfl⟩).1 _ _,
   (C9_parallel_relators_agree tcxTriv
      ⟨rfl, fun _ _ => rfl, fun _ _ => rfl, fun _ _ => rfl, fun _ _ _ => rfl,
       fun _ _ _ _ => rfl, fun _ _ _ _ => rfl, fun _ _ _ _ => rfl,
       fun _ _ => rfl, fun _ _ => rfl, fun _ _ => rfl, fun _ _ => rfl⟩).2 _ _⟩


/-! ## Lemmas about the GAT bound-variable mapping (claim C4) -/

theorem lookup_isSome_append_left {α : Type} (v : Nat) (m l : List (Nat × α))
    (h : (m.lookup v).isSome) : ((m ++ l).lookup v).isSome := by
  induction m with
  | nil => simp [List.lookup] at h
  | cons a m ih =>
    obtain ⟨k, x⟩ := a
    simp only [List.lookup] at h
    simp only [List.cons_append, List.lookup]
    cases hk : v == k <;> simp only [hk] at h ⊢
    · exact ih h
    · rfl

theorem lookup_isSome_append_self {α : Type} (v : Nat) (m : List (Nat × α)) (x : α) :
    ((m ++ [(v, x)]).lookup v).isSome := by
  induction m with
  | nil => simp [List.lookup]
  | cons a m ih =>
    obtain ⟨k, y⟩ := a
    simp only [List.cons_append, List.lookup]
    cases hk : v == k <;> simp only [hk]
    · exact ih
    · rfl

/-- If some zipped (parameter, argument) pair has an argument that is not a
bound variable at the innermost binder, the mapping construction aborts. -/
theorem buildGatMapping_none_of_bad (ps : List Nat) (vs : List GatArg)
    (m : List (Nat × Nat))
    (h : ∃ pr ∈ ps.zip vs, gatArgBoundVar pr.2 = none) :
    buildGatMapping ps vs m = none := by
  induction ps generalizing vs m with
  | nil => simp at h
  | cons p ps ih =>
    cases vs with
    | nil => simp at h
    | cons v vs =>
      cases hv : gatArgBoundVar v with
      | none => simp [buildGatMapping, hv]
      | some bv =>
        obtain ⟨pr, hmem, hnone⟩ := h
        simp only [List.zip_cons_cons, List.mem_cons] at hmem
        rcases hmem with rfl | hmem
        · have hv0 : gatArgBoundVar v = none := hnone
          rw [hv0] at hv
          cases hv
        · simp only [buildGatMapping, hv]
          split
          · rfl
          · exact ih vs (m ++ [(bv, p)]) ⟨pr, hmem, hnone⟩

/-- If some zipped pair maps to a bound variable already present in the
accumulated mapping, the construction aborts. -/
theorem buildGatMapping_none_of_lookup (ps : List Nat) (vs : List GatArg)
    (m : List (Nat × Nat)) (v : Nat)
    (hmem : ∃ pr ∈ ps.zip vs, gatArgBoundVar pr.2 = some v)
    (hl : (m.lookup v).isSome) :
    buildGatMapping ps vs m = none := by
  induction ps generalizing vs m with
  | nil => simp at hmem
  | cons p ps ih =>
    cases vs with
    | nil => simp at hmem
    | cons v0 vs =>
      cases hv : gatArgBoundVar v0 with
      | none => simp [buildGatMapping, hv]
      | some bv =>
        obtain ⟨pr, hpr, hsome⟩ := hmem
        simp only [List.zip_cons_cons, List.mem_cons] at hpr
        simp only [buildGatMapping, hv]
        rcases hpr with rfl | hpr
        · have hbv : gatArgBoundVar v0 = some v := hsome
          rw [hbv] at hv
          injection hv with hv
          subst hv
          simp [hl]
        · split
          · rfl
          · exact ih vs (m ++ [(bv, p)]) ⟨pr, hpr, hsome⟩
              (lookup_isSome_append_left v m _ hl)

/-- If two distinct zipped pairs map to the same bound variable, the
mapping construction aborts. -/
theorem buildGatMapping_none_of_dup (ps : List Nat) (vs : List GatArg)
    (m : List (Nat × Nat)) (v : Nat) (l1 l2 l3 : List (Nat × GatArg))
    (x y : Nat × GatArg)
    (hsplit : ps.zip vs = l1 ++ x :: (l2 ++ y :: l3))
    (hx : gatArgBoundVar x.2 = some v) (hy : gatArgBoundVar y.2 = some v) :
    buildGatMapping ps vs m = none := by
  induction ps generalizing vs m l1 with
  | nil => simp at hsplit
  | cons p ps ih =>
    cases vs with
    | nil => simp at hsplit
    | cons v0 vs =>
      simp only [List.zip_cons_cons] at hsplit
      cases l1 with
      | nil =>
        simp only [List.nil_append] at hsplit
        injection hsplit with h1 h2
        subst h1
        have hv0 : gatArgBoundVar v0 = some v := hx
        simp only [buildGatMapping, hv0]
        split
        · rfl
        · refine buildGatMapping_none_of_lookup ps vs _ v ⟨y, ?_, hy⟩ ?_
          · rw [h2]
            exact List.mem_append_right _ (List.mem_cons_self _ _)
          · exact lookup_isSome_append_self v m p
      | cons z l1 =>
        injection hsplit with h1 h2
        cases hv : gatArgBoundVar v0 with
        | none => simp [buildGatMapping, hv]
        | some bv =>
          simp only [buildGatMapping, hv]
          split
          · rfl
          · exact ih vs (m ++ [(bv, p)]) l1 h2

/-- C4: in `associated_type_bounds`, an inherited where-clause whose self
type strips to the associated type with a non-empty trailing GAT argument
list is silently excluded from the item bounds whenever some zipped
trailing argument is not a bound variable at the innermost binder, or two
zipped trailing arguments map to the same bound variable: the closure
returns `none` — the only failure channel; no error value and no
diagnostic exist. -/
theorem C4_gat_remap_silent_drop (itemTraitRef numParams : Nat)
    (clause : ParentClause) (gatVars : List GatArg)
    (hself : clause.hasSelfTy = true)
    (hstrip : gatVarsOf itemTraitRef clause.selfTy = some gatVars)
    (hne : gatVars ≠ [])
    (hbad :
      (∃ pr ∈ (List.range numParams).zip gatVars, gatArgBoundVar pr.2 = none) ∨
      (∃ v : Nat, ∃ l1 l2 l3 : List (Nat × GatArg), ∃ x y : Nat × GatArg,
        (List.range numParams).zip gatVars = l1 ++ x :: (l2 ++ y :: l3) ∧
        gatArgBoundVar x.2 = some v ∧ gatArgBoundVar y.2 = some v)) :
    associated_type_bound_from_parent itemTraitRef numParams clause = none := by
  have hmap : buildGatMapping (List.range numParams) gatVars [] = none := by
    rcases hbad with hbad | ⟨v, l1, l2, l3, x, y, hsplit, hx, hy⟩
    · exact buildGatMapping_none_of_bad _ _ _ hbad
    · exact buildGatMapping_none_of_dup _ _ _ v l1 l2 l3 x y hsplit hx hy
  obtain ⟨g, gs, rfl⟩ : ∃ g gs, gatVars = g :: gs := by
    cases gatVars with
    | nil => exact absurd rfl hne
    | cons g gs => exact ⟨g, gs, rfl⟩
  simp [associated_type_bound_from_parent, hself, hstrip, hmap]

theorem C4_gat_remap_silent_drop_witness :
    associated_type_bound_from_parent 5 2 gatClauseScenario4 = none :=
  C4_gat_remap_silent_drop 5 2 gatClauseScenario4
    [GatArg.reBound 0 0, GatArg.reOther] rfl rfl (by simp)
    (Or.inl ⟨(1, GatArg.reOther),
      by
        simp [show (List.range 2).zip [GatArg.reBound 0 0, GatArg.reOther] =
          [(0, GatArg.reBound 0 0), (1, GatArg.reOther)] from rfl],
      rfl⟩)

/-! ## Frame conditions of the RemoveZsts pass (claim C8) -/

theorem map_id_of_forall_mem {α : Type} (l : List α) (f : α → α)
    (h : ∀ a ∈ l, f a = a) : l.map f = l := by
  induction l with
  | nil => rfl
  | cons a as ih =>
    simp only [List.map_cons]
    rw [h a (List.mem_cons_self a as), ih (fun b hb => h b (List.mem_cons_of_mem a hb))]

/-- C8: `RemoveZsts::run_pass` leaves a generator body entirely unchanged;
on any other body its rewrites are confined to non-constant operands,
debug-info places and assign/deinit statements whose type has statically
zero-sized layout (each becoming the canonical zero-sized constant or a
`Nop`), while every other operand, statement, debug-info entry and
terminator is left unchanged. -/
theorem C8_remove_zsts_frame :
    (∀ (layoutOf : LayoutOracle) (body : Body), body.isGenerator = true →
      RemoveZsts.run_pass layoutOf body = body) ∧
    (∀ (r : Replacer) (op : Operand),
      (∀ t, operandTy r.localDecls op = some t → r.is_zst t = false) →
      visitOperand r op = op) ∧
    (∀ (r : Replacer) (op : Operand) (t : Ty), (∀ c, op ≠ .constant c) →
      operandTy r.localDecls op = some t → r.is_zst t = true →
      visitOperand r op = .constant (make_zst t)) ∧
    (∀ (r : Replacer) (p : Place) (rv : Rvalue), placeIsZst r p = true →
      visitStatement r (.assign p rv) = .nop ∧ visitStatement r (.deinit p) = .nop) ∧
    (∀ (r : Replacer) (p : Place) (rv : Rvalue), placeIsZst r p = false →
      visitStatement r (.assign p rv) = .assign p (visitRvalue r rv) ∧
      visitStatement r (.deinit p) = .deinit p) ∧
    (∀ (r : Replacer) (l : Nat), visitStatement r (.storageLive l) = .storageLive l ∧
      visitStatement r (.storageDead l) = .storageDead l ∧
      visitStatement r .nop = .nop) ∧
    (∀ (r : Replacer) (t : Terminator),
      (∀ op ∈ terminatorOperands t, visitOperand r op = op) →
      visitTerminator r t = t) ∧
    (∀ (r : Replacer) (p : Place) (t : Ty), placeTy r.localDecls p = some t →
      r.is_zst t = true → visitVarDebugInfo r (.place p) = .const (make_zst t)) ∧
    (∀ (r : Replacer) (p : Place) (t : Ty), placeTy r.localDecls p = some t →
      r.is_zst t = false → visitVarDebugInfo r (.place p) = .place p) ∧
    (∀ (r : Replacer) (c : Constant), visitVarDebugInfo r (.const c) = .const c) ∧
    (∀ (layoutOf : LayoutOracle) (body : Body), body.isGenerator = false →
      RemoveZsts.run_pass layoutOf body =
        Body.mk false body.localDecls
          (body.varDebugInfo.map (visitVarDebugInfo (Replacer.mk layoutOf body.localDecls)))
          (body.basicBlocks.map (visitBasicBlockData (Replacer.mk layoutOf body.localDecls)))) := by
  refine ⟨?_, ?_, ?_, ?_, ?_, ?_, ?_, ?_, ?_, ?_, ?_⟩
  · intro layoutOf body h
    simp [RemoveZsts.run_pass, h]
  · intro r op h
    cases op with
    | constant c => rfl
    | copy p =>
      simp only [visitOperand]
      cases ht : operandTy r.localDecls (Operand.copy p) with
      | none => rfl
      | some t => simp [h t ht]
    | move p =>
      simp only [visitOperand]
      cases ht : operandTy r.localDecls (Operand.move p) with
      | none => rfl
      | some t => simp [h t ht]
  · intro r op t hnc ht hz
    cases op with
    | constant c => exact absurd rfl (hnc c)
    | copy p =>
      simp only [visitOperand]
      rw [ht]
      simp [hz]
    | move p =>
      simp only [visitOperand]
      rw [ht]
      simp [hz]
  · intro r p rv h
    exact ⟨by simp [visitStatement, h], by simp [visitStatement, h]⟩
  · intro r p rv h
    exact ⟨by simp [visitStatement, h], by simp [visitStatement, h]⟩
  · intro r l
    exact ⟨rfl, rfl, rfl⟩
  · intro r t h
    cases t with
    | goto bb => rfl
    | ret => rfl
    | switchInt d targets =>
      have hd := h d (by simp [terminatorOperands])
      simp [visitTerminator, hd]
    | call f args dest target =>
      have hf := h f (by simp [terminatorOperands])
      have hargs : args.map (visitOperand r) = args :=
        map_id_of_forall_mem args (visitOperand r)
          (fun a ha => h a (by simp [terminatorOperands, ha]))
      simp [visitTerminator, hf, hargs]
  · intro r p t hp hz
    simp [visitVarDebugInfo, hp, hz]
  · intro r p t hp hz
    simp [visitVarDebugInfo, hp, hz]
  · intro r c
    rfl
  · intro layoutOf body h
    simp [RemoveZsts.run_pass, h]

theorem C8_remove_zsts_frame_witness :
    RemoveZsts.run_pass layoutAllZst genBody = genBody :=
  C8_remove_zsts_frame.1 layoutAllZst genBody rfl

end Rustc




